import Mathlib

/- Verification development for the careconnect-telebot repository.

   The Python sources are shallowly embedded: strings are lists of
   characters, Python `datetime` values are microsecond counts on a
   linear timeline (naive datetimes under the proleptic Gregorian
   calendar are order- and arithmetic-isomorphic to such counts),
   regular-expression searches are modelled by executable scanning
   functions that implement the exact matching semantics of the fixed
   patterns appearing in the sources, and code behind HTTP / Telegram
   boundaries is modelled by passing the fetched data and recording the
   messages that would be sent. -/

namespace CareConnect

/- ===== Python `str` primitives ===== -/

/-- Python strings are modelled as lists of characters, so that `len`,
slicing and `rfind` are positional in characters exactly as in Python. -/
abbrev Str := List Char

/-- Convert a Lean string literal to the model type. -/
def str (s : String) : Str := s.toList

/-- Word characters of the regex class `\w` (ASCII range, which is what
the repository's texts use). -/
def isWordChar (c : Char) : Bool := c.isAlpha || c.isDigit || c == '_'

/-- Whitespace characters of `str.strip` / regex `\s` (ASCII range). -/
def isSpaceChar (c : Char) : Bool :=
  c == ' ' || c == '\t' || c == '\n' || c == '\r' ||
  c == Char.ofNat 11 || c == Char.ofNat 12

/-- Python `str.lower` on one character (ASCII case folding). -/
def lowerChar (c : Char) : Char :=
  if 65 ≤ c.toNat && c.toNat ≤ 90 then Char.ofNat (c.toNat + 32) else c

/-- Python `str.lower`. -/
def lowerStr (s : Str) : Str := s.map lowerChar

/-- Python `str.strip`. -/
def stripStr (s : Str) : Str :=
  ((s.dropWhile isSpaceChar).reverse.dropWhile isSpaceChar).reverse

/-- Python substring membership `needle in hay`. -/
def listSub (needle : Str) : Str → Bool
  | [] => needle.isEmpty
  | c :: t => needle.isPrefixOf (c :: t) || listSub needle t

/-- Worker for `splitWs`, collecting the current word in reverse. -/
def splitWsAux : Str → Str → List Str
  | [], acc => if acc.isEmpty then [] else [acc.reverse]
  | c :: t, acc =>
    if isSpaceChar c then
      if acc.isEmpty then splitWsAux t [] else acc.reverse :: splitWsAux t []
    else splitWsAux t (c :: acc)

/-- Python `str.split()`: split on whitespace runs, dropping empty parts. -/
def splitWs (s : Str) : List Str := splitWsAux s []

/- ===== `re` search primitives for the fixed patterns in the sources ===== -/

/-- Position outside a word: start/end of the text or a non-word
character, the semantics of the regex anchor `\b` next to a word
character. -/
def boundaryOk : Option Char → Bool
  | none => true
  | some c => !isWordChar c

/-- Whole-word match of the literal `w` at the head of `hay`, with the
character preceding `hay` given by `prev`. -/
def wordAt (w : Str) (prev : Option Char) (hay : Str) : Bool :=
  w.isPrefixOf hay && boundaryOk prev && boundaryOk (hay.drop w.length).head?

/-- Scan for a whole-word occurrence, tracking the previous character. -/
def wordSearchAux (w : Str) (prev : Option Char) : Str → Bool
  | [] => wordAt w prev []
  | c :: t => wordAt w prev (c :: t) || wordSearchAux w (some c) t

/-- Model of `re.search(r"\b" + w + r"\b", text)` for a literal word `w`
whose first and last characters are word characters. -/
def wordSearch (w : Str) (hay : Str) : Bool := wordSearchAux w none hay

/-- Numeric value of a digit run, as `int` applied to the captured group. -/
def digitsVal (ds : Str) : Nat := ds.foldl (fun a c => a * 10 + (c.toNat - 48)) 0

/-- Match of `last (\d+) hours?` at the head of `t`: the literal
`last `, a maximal nonempty digit run (the greedy group), then the
literal ` hour` (the optional trailing `s` never decides a search). -/
def lastHoursAt (t : Str) : Option Nat :=
  if (str "last ").isPrefixOf t then
    let rest := t.drop 5
    let ds := rest.takeWhile Char.isDigit
    if ds.isEmpty then none
    else if (str " hour").isPrefixOf (rest.dropWhile Char.isDigit) then
      some (digitsVal ds)
    else none
  else none

/-- Model of `re.search(r"last (\d+) hours?", text)`, returning the
captured hour count of the leftmost match. -/
def lastHoursSearch : Str → Option Nat
  | [] => none
  | c :: t =>
    match lastHoursAt (c :: t) with
    | some n => some n
    | none => lastHoursSearch t

/- ===== timeline model of naive `datetime` values ===== -/

/-- Microseconds on a linear timeline; naive `datetime` values and
`timedelta` arithmetic are faithfully represented this way. -/
abbrev Micros := Int

def usPerMinute : Int := 60000000

def usPerHour : Int := 3600000000

def usPerDay : Int := 86400000000

/-- Model of `dt.replace(hour=0, minute=0, second=0, microsecond=0)`:
the start of the civil day containing `t`. -/
def dayFloor (t : Micros) : Micros := t - t.emod usPerDay

/-- Python `date.weekday()` of the day containing `t`: Monday is 0.
Day 0 of the timeline (1970-01-01) was a Thursday, hence the offset 3. -/
def weekdayOf (t : Micros) : Int := (t.fdiv usPerDay + 3).emod 7

/- ===== backtracking-faithful matchers for the resident-name regexes ===== -/

/-- Literal matcher in continuation-passing style: consume the literal
`w`, then run the continuation on the rest. -/
def litM (w : Str) (rest : Str) (k : Str → Option Str) : Option Str :=
  if w.isPrefixOf rest then k (rest.drop w.length) else none

/-- Greedy `\s+` matcher with full backtracking: try the longest
whitespace run first, then shorter nonempty ones, as `re` does. -/
def wsPlusM (rest : Str) (k : Str → Option Str) : Option Str :=
  let m := (rest.takeWhile isSpaceChar).length
  if m = 0 then none
  else (List.range m).findSome? (fun j => k (rest.drop (m - j)))

/-- Optional-group matcher `(?:X)?`: try the branch with `X` present
first, then the empty alternative, as `re` does. -/
def optM (branch : Str → (Str → Option Str) → Option Str)
    (rest : Str) (k : Str → Option Str) : Option Str :=
  match branch rest k with
  | some g => some g
  | none => k rest

/-- Lazy capture group `([A-Za-z\s]+?)` followed by a tail with the
given Boolean acceptance: try lengths 1, 2, ... and return the shortest
group whose tail matches. -/
def lazyGroupM (cls : Char → Bool) (rest : Str) (tail : Str → Bool) : Option Str :=
  (List.range rest.length).findSome? (fun i =>
    let g := rest.take (i + 1)
    if g.all cls && tail (rest.drop (i + 1)) then some g else none)

/-- Character class `[A-Za-z\s]` of the resident-name capture groups. -/
def nameClass (c : Char) : Bool := c.isAlpha || isSpaceChar c

/-- Regex alternative `(?:\s|$)` at a position. -/
def wsOrEnd : Str → Bool
  | [] => true
  | c :: _ => isSpaceChar c

/-- Tail `\s+LIT` (a greedy whitespace run then a literal starting with
a non-space character, which makes the match deterministic). -/
def wsLit (w : Str) (rest : Str) : Option Str :=
  let sp := (rest.takeWhile isSpaceChar).length
  if sp = 0 then none
  else if w.isPrefixOf (rest.drop sp) then some ((rest.drop sp).drop w.length)
  else none

/-- Run a position matcher at every start position and return the first
(leftmost) successful capture, the semantics of `re.search`. -/
def scanFirst (p : Str → Option Str) : Str → Option Str
  | [] => p []
  | c :: t =>
    match p (c :: t) with
    | some g => some g
    | none => scanFirst p t

/- ===== shared result shapes of the two query parsers ===== -/

/-- Filters dictionary built by the parsers; each key that a code path
may set is an optional field, `none` meaning the key is absent. -/
structure Filters where
  status : Option Str := none
  priority : Option Str := none
  location : Option Str := none
  category : Option Str := none
  resident_name : Option Str := none
deriving DecidableEq, Repr

/-- Parameters dictionary returned by `parse_query`; the literal
`{"time_range": ..., "filters": ...}` always carries both keys, which
this structure records by construction. An empty `time_range` dict is
`none`. -/
structure Params where
  time_range : Option (Micros × Micros)
  filters : Filters
deriving DecidableEq, Repr

/-- Matchers for the six `direct_patterns` regexes of
`extract_resident_name`, shared verbatim by both parser copies. -/
def tailP1 (rest : Str) : Bool :=
  (match wsLit (str "doing") rest with
   | some r => wsOrEnd r
   | none => false) || wsOrEnd rest

/-- Pattern `how\s+is\s+([A-Za-z\s]+?)(?:\s+doing)?(?:\s|$)` at a position. -/
def p1At (t : Str) : Option Str :=
  litM (str "how") t (fun r1 => wsPlusM r1 (fun r2 =>
    litM (str "is") r2 (fun r3 => wsPlusM r3 (fun r4 =>
      lazyGroupM nameClass r4 tailP1))))

def tailP2 (rest : Str) : Bool :=
  (match wsLit (str "today") rest with
   | some r => wsOrEnd r
   | none => false) ||
  (match wsLit (str "yesterday") rest with
   | some r => wsOrEnd r
   | none => false) ||
  (match wsLit (str "this") rest with
   | some r =>
     match wsLit (str "week") r with
     | some r2 => wsOrEnd r2
     | none => false
   | none => false) || wsOrEnd rest

/-- Pattern `what\s+happened\s+to\s+([A-Za-z\s]+?)(?:\s+today|\s+yesterday|\s+this\s+week)?(?:\s|$)`. -/
def p2At (t : Str) : Option Str :=
  litM (str "what") t (fun r1 => wsPlusM r1 (fun r2 =>
    litM (str "happened") r2 (fun r3 => wsPlusM r3 (fun r4 =>
      litM (str "to") r4 (fun r5 => wsPlusM r5 (fun r6 =>
        lazyGroupM nameClass r6 tailP2))))))

/-- Literal directly after the capture (the suffix alternatives of the
third pattern carry no `\s+` except the first one). -/
def litThenEnd (w : Str) (rest : Str) : Bool :=
  w.isPrefixOf rest && wsOrEnd (rest.drop w.length)

def tailP3 (rest : Str) : Bool :=
  (match wsLit (str "info") rest with
   | some r => wsOrEnd r
   | none => false) ||
  litThenEnd (str "information") rest ||
  litThenEnd (str "details") rest ||
  litThenEnd (str "profile") rest ||
  litThenEnd (str "status") rest || wsOrEnd rest

/-- Core of the third pattern after the optional `(?:resident|patient)?`. -/
def p3Core (r : Str) : Option Str :=
  wsPlusM r (fun r2 => lazyGroupM nameClass r2 tailP3)

/-- Pattern `(?:resident|patient)?\s+([A-Za-z\s]+?)(?:\s+info|information|details|profile|status)?(?:\s|$)`. -/
def p3At (t : Str) : Option Str :=
  match litM (str "resident") t p3Core with
  | some g => some g
  | none =>
    match litM (str "patient") t p3Core with
    | some g => some g
    | none => p3Core t

/-- Pattern `tell\s+me\s+about\s+([A-Za-z\s]+?)(?:\s|$)`. -/
def p4At (t : Str) : Option Str :=
  litM (str "tell") t (fun r1 => wsPlusM r1 (fun r2 =>
    litM (str "me") r2 (fun r3 => wsPlusM r3 (fun r4 =>
      litM (str "about") r4 (fun r5 => wsPlusM r5 (fun r6 =>
        lazyGroupM nameClass r6 wsOrEnd))))))

/-- Optional `(?:resident|patient)?` in continuation-passing style. -/
def resPatOpt (rest : Str) (k : Str → Option Str) : Option Str :=
  match litM (str "resident") rest k with
  | some g => some g
  | none =>
    match litM (str "patient") rest k with
    | some g => some g
    | none => k rest

/-- Pattern `show\s+(?:me\s+)?(?:resident|patient)?\s+([A-Za-z\s]+?)(?:\s|$)`. -/
def p5At (t : Str) : Option Str :=
  litM (str "show") t (fun r1 => wsPlusM r1 (fun r2 =>
    optM (fun rest k => litM (str "me") rest (fun r => wsPlusM r k)) r2 (fun r3 =>
      resPatOpt r3 (fun r4 =>
        wsPlusM r4 (fun r5 => lazyGroupM nameClass r5 wsOrEnd)))))

/-- Shared suffix of the sixth pattern after its verb alternation. -/
def p6After (r : Str) : Option Str :=
  wsPlusM r (fun r2 => resPatOpt r2 (fun r3 =>
    wsPlusM r3 (fun r4 => lazyGroupM nameClass r4 wsOrEnd)))

/-- Pattern `(?:find|look\s+up|search\s+for)\s+(?:resident|patient)?\s+([A-Za-z\s]+?)(?:\s|$)`. -/
def p6At (t : Str) : Option Str :=
  match litM (str "find") t p6After with
  | some g => some g
  | none =>
    match litM (str "look") t (fun r => wsPlusM r (fun r2 =>
        litM (str "up") r2 p6After)) with
    | some g => some g
    | none =>
      litM (str "search") t (fun r => wsPlusM r (fun r2 =>
        litM (str "for") r2 p6After))

/-- One `[A-Z][a-z]+` word of the capitalisation fallback regex. -/
def capWordAt : Str → Option (Str × Str)
  | [] => none
  | c :: rest =>
    if c.isUpper then
      let run := rest.takeWhile Char.isLower
      if run.isEmpty then none else some (c :: run, rest.drop run.length)
    else none

/-- One greedy `\s+[A-Z][a-z]+` repetition with its matched text. -/
def capRep (r : Str) : Option (Str × Str) :=
  let sp := r.takeWhile isSpaceChar
  if sp.isEmpty then none
  else
    match capWordAt (r.drop sp.length) with
    | none => none
    | some (w, rest) => some (sp ++ w, rest)

/-- Match of `([A-Z][a-z]+(?:\s+[A-Z][a-z]+){0,2})` at a position; the
greedy repetition takes as many of its two allowed copies as fit. -/
def capAt (t : Str) : Option Str :=
  match capWordAt t with
  | none => none
  | some (w1, r1) =>
    match capRep r1 with
    | none => some w1
    | some (m2, r2) =>
      match capRep r2 with
      | none => some (w1 ++ m2)
      | some (m3, _) => some (w1 ++ m2 ++ m3)

/-- Indicator substrings of `_is_resident_query`. -/
def resident_indicators : List Str :=
  [str "resident", str "patient", str "how is", str "tell me about",
   str "profile", str "details", str "information", str "status",
   str "what happened to", str "show resident"]

namespace QP

/- Embedding of `assistant_bot/services/query_parser.py` (class
`QueryParser`); `datetime.now()` is passed in as the parameter `now`. -/

/-- Method `_get_today_range`: 00:00:00 to 23:59:59.999999 of the
current day. -/
def get_today_range (now : Micros) : Micros × Micros :=
  (dayFloor now,
   dayFloor now + 23 * usPerHour + 59 * usPerMinute + 59 * 1000000 + 999999)

/-- Method `_get_tomorrow_range`. -/
def get_tomorrow_range (now : Micros) : Micros × Micros :=
  (dayFloor (now + usPerDay),
   dayFloor (now + usPerDay) + 23 * usPerHour + 59 * usPerMinute + 59 * 1000000 + 999999)

/-- Method `_get_yesterday_range`. -/
def get_yesterday_range (now : Micros) : Micros × Micros :=
  (dayFloor (now - usPerDay),
   dayFloor (now - usPerDay) + 23 * usPerHour + 59 * usPerMinute + 59 * 1000000 + 999999)

/-- Method `_get_this_week_range`: start of Monday of the current week
up to now. -/
def get_this_week_range (now : Micros) : Micros × Micros :=
  (dayFloor (now - weekdayOf now * usPerDay), now)

/-- Method `_get_last_hours_range`. -/
def get_last_hours_range (now : Micros) (hours : Nat) : Micros × Micros :=
  (now - hours * usPerHour, now)

/-- Method `_extract_time_range`: the `time_patterns` dictionary is
iterated in insertion order (today, tomorrow, yesterday, this_week,
last_hours) and the first matching pattern decides; `re.IGNORECASE` is
modelled by matching against the case-folded text. -/
def extract_time_range (now : Micros) (text : Str) : Option (Micros × Micros) :=
  let tl := lowerStr text
  if wordSearch (str "today") tl then some (get_today_range now)
  else if wordSearch (str "tomorrow") tl then some (get_tomorrow_range now)
  else if wordSearch (str "yesterday") tl then some (get_yesterday_range now)
  else if wordSearch (str "this week") tl then some (get_this_week_range now)
  else
    match lastHoursSearch tl with
    | some h => some (get_last_hours_range now h)
    | none => none

/-- Method `_extract_task_filters`. -/
def extract_task_filters (text : Str) : Filters :=
  let tl := lowerStr text
  { status :=
      if wordSearch (str "overdue") tl then some (str "Overdue")
      else if wordSearch (str "pending") tl then some (str "Pending")
      else if wordSearch (str "completed") tl then some (str "Completed")
      else none
    priority :=
      if wordSearch (str "high priority") tl then some (str "High")
      else if wordSearch (str "medium priority") tl then some (str "Medium")
      else if wordSearch (str "low priority") tl then some (str "Low")
      else none }

/-- Location capture `in\s+([A-Za-z\s]+)(room|hall|area)?` at one
position: greedy whitespace, then the greedy group; when no group
character follows the whitespace run, the regex backtracks one
whitespace character into the group, which strips to the empty name. -/
def locationAt (t : Str) : Option Str :=
  if lowerStr (t.take 2) = str "in" then
    let rest := t.drop 2
    let m := (rest.takeWhile isSpaceChar).length
    if m = 0 then none
    else
      let g := (rest.drop m).takeWhile nameClass
      if g.isEmpty then
        if 2 ≤ m then some (stripStr ((rest.drop (m - 1)).take 1)) else none
      else some (stripStr g)
  else none

/-- Method `_extract_activity_filters`. -/
def extract_activity_filters (text : Str) : Filters :=
  let tl := lowerStr text
  { location := scanFirst locationAt text
    category :=
      if wordSearch (str "medication") tl then some (str "Medication")
      else if wordSearch (str "exercise") tl then some (str "Exercise")
      else if wordSearch (str "social") tl then some (str "Social")
      else if wordSearch (str "entertainment") tl then some (str "Entertainment")
      else if wordSearch (str "education") tl then some (str "Education")
      else none }

/-- Method `_extract_resident_name`: the six direct patterns in order,
then the 1-to-3-word fallback, then the capitalisation regex (which
cannot fire on the case-folded text), then the empty name. -/
def extract_resident_name (text : Str) : Str :=
  let t := lowerStr (stripStr text)
  match scanFirst p1At t with
  | some name => stripStr name
  | none =>
  match scanFirst p2At t with
  | some name => stripStr name
  | none =>
  match scanFirst p3At t with
  | some name => stripStr name
  | none =>
  match scanFirst p4At t with
  | some name => stripStr name
  | none =>
  match scanFirst p5At t with
  | some name => stripStr name
  | none =>
  match scanFirst p6At t with
  | some name => stripStr name
  | none =>
    let words := splitWs t
    if 1 ≤ words.length && words.length ≤ 3 then List.intercalate (str " ") words
    else
      match scanFirst capAt t with
      | some name => stripStr name
      | none => []

/-- Method `_is_resident_query`. -/
def is_resident_query (text : Str) : Bool :=
  let t := lowerStr (stripStr text)
  resident_indicators.any (fun ind => listSub ind t) ||
    (1 ≤ (splitWs t).length && (splitWs t).length ≤ 3)

/-- Method `parse_query` of class `QueryParser` (the non-exceptional
path; the `except` branch is modelled separately by
`parse_query_onError`). -/
def parse_query (now : Micros) (message_text : Str) : String × Params :=
  let t := lowerStr (stripStr message_text)
  if listSub (str "today") t && (listSub (str "task") t || listSub (str "tasks") t) then
    ("task_query", { time_range := some (get_today_range now), filters := {} })
  else if wordSearch (str "task") t || wordSearch (str "tasks") t then
    ("task_query", { time_range := extract_time_range now t,
                     filters := extract_task_filters t })
  else if wordSearch (str "activity") t || wordSearch (str "activities") t ||
      wordSearch (str "upcoming") t || wordSearch (str "scheduled") t then
    ("activity_query", { time_range := extract_time_range now t,
                         filters := extract_activity_filters t })
  else if is_resident_query t then
    ("resident_query", { time_range := extract_time_range now t,
                         filters := { resident_name := some (extract_resident_name t) } })
  else
    ("general_question", { time_range := none, filters := {} })

/-- The `except Exception` branch of `parse_query`: whatever the error,
the result is `general_question` with empty dictionaries. -/
def parse_query_onError (_e : Unit) : String × Params :=
  ("general_question", { time_range := none, filters := {} })

end QP

namespace QH

/- Embedding of `assistant_bot/handlers/query_handler.py`, the
module-level copy of the parser; its functions repeat the bodies of the
`QueryParser` methods, so the definitions below repeat the `QP` ones. -/

/-- Function `get_today_range`. -/
def get_today_range (now : Micros) : Micros × Micros :=
  (dayFloor now,
   dayFloor now + 23 * usPerHour + 59 * usPerMinute + 59 * 1000000 + 999999)

/-- Function `get_tomorrow_range`. -/
def get_tomorrow_range (now : Micros) : Micros × Micros :=
  (dayFloor (now + usPerDay),
   dayFloor (now + usPerDay) + 23 * usPerHour + 59 * usPerMinute + 59 * 1000000 + 999999)

/-- Function `get_yesterday_range`. -/
def get_yesterday_range (now : Micros) : Micros × Micros :=
  (dayFloor (now - usPerDay),
   dayFloor (now - usPerDay) + 23 * usPerHour + 59 * usPerMinute + 59 * 1000000 + 999999)

/-- Function `get_this_week_range`. -/
def get_this_week_range (now : Micros) : Micros × Micros :=
  (dayFloor (now - weekdayOf now * usPerDay), now)

/-- Function `get_last_hours_range`. -/
def get_last_hours_range (now : Micros) (hours : Nat) : Micros × Micros :=
  (now - hours * usPerHour, now)

/-- Function `extract_time_range`; the module-level `time_patterns`
dictionary has the same insertion order as the class's. -/
def extract_time_range (now : Micros) (text : Str) : Option (Micros × Micros) :=
  let tl := lowerStr text
  if wordSearch (str "today") tl then some (get_today_range now)
  else if wordSearch (str "tomorrow") tl then some (get_tomorrow_range now)
  else if wordSearch (str "yesterday") tl then some (get_yesterday_range now)
  else if wordSearch (str "this week") tl then some (get_this_week_range now)
  else
    match lastHoursSearch tl with
    | some h => some (get_last_hours_range now h)
    | none => none

/-- Function `extract_task_filters`. -/
def extract_task_filters (text : Str) : Filters :=
  let tl := lowerStr text
  { status :=
      if wordSearch (str "overdue") tl then some (str "Overdue")
      else if wordSearch (str "pending") tl then some (str "Pending")
      else if wordSearch (str "completed") tl then some (str "Completed")
      else none
    priority :=
      if wordSearch (str "high priority") tl then some (str "High")
      else if wordSearch (str "medium priority") tl then some (str "Medium")
      else if wordSearch (str "low priority") tl then some (str "Low")
      else none }

/-- Function `extract_activity_filters` (same regexes as the class). -/
def extract_activity_filters (text : Str) : Filters :=
  let tl := lowerStr text
  { location := scanFirst QP.locationAt text
    category :=
      if wordSearch (str "medication") tl then some (str "Medication")
      else if wordSearch (str "exercise") tl then some (str "Exercise")
      else if wordSearch (str "social") tl then some (str "Social")
      else if wordSearch (str "entertainment") tl then some (str "Entertainment")
      else if wordSearch (str "education") tl then some (str "Education")
      else none }

/-- Function `extract_resident_name` (same `direct_patterns` list). -/
def extract_resident_name (text : Str) : Str :=
  let t := lowerStr (stripStr text)
  match scanFirst p1At t with
  | some name => stripStr name
  | none =>
  match scanFirst p2At t with
  | some name => stripStr name
  | none =>
  match scanFirst p3At t with
  | some name => stripStr name
  | none =>
  match scanFirst p4At t with
  | some name => stripStr name
  | none =>
  match scanFirst p5At t with
  | some name => stripStr name
  | none =>
  match scanFirst p6At t with
  | some name => stripStr name
  | none =>
    let words := splitWs t
    if 1 ≤ words.length && words.length ≤ 3 then List.intercalate (str " ") words
    else
      match scanFirst capAt t with
      | some name => stripStr name
      | none => []

/-- Function `is_resident_query`. -/
def is_resident_query (text : Str) : Bool :=
  let t := lowerStr (stripStr text)
  resident_indicators.any (fun ind => listSub ind t) ||
    (1 ≤ (splitWs t).length && (splitWs t).length ≤ 3)

/-- Function `parse_query` (module level, non-exceptional path). -/
def parse_query (now : Micros) (message_text : Str) : String × Params :=
  let t := lowerStr (stripStr message_text)
  if listSub (str "today") t && (listSub (str "task") t || listSub (str "tasks") t) then
    ("task_query", { time_range := some (get_today_range now), filters := {} })
  else if wordSearch (str "task") t || wordSearch (str "tasks") t then
    ("task_query", { time_range := extract_time_range now t,
                     filters := extract_task_filters t })
  else if wordSearch (str "activity") t || wordSearch (str "activities") t ||
      wordSearch (str "upcoming") t || wordSearch (str "scheduled") t then
    ("activity_query", { time_range := extract_time_range now t,
                         filters := extract_activity_filters t })
  else if is_resident_query t then
    ("resident_query", { time_range := extract_time_range now t,
                         filters := { resident_name := some (extract_resident_name t) } })
  else
    ("general_question", { time_range := none, filters := {} })

/-- The `except Exception` branch of the module-level `parse_query`. -/
def parse_query_onError (_e : Unit) : String × Params :=
  ("general_question", { time_range := none, filters := {} })

end QH

/- ===== formatting primitives ===== -/

/-- Apostrophe character, used by the response templates. -/
def apos : Str := [Char.ofNat 39]

/-- Zero-padded two-digit rendering of a nonnegative field. -/
def pad2 (n : Int) : Str :=
  if n < 10 then '0' :: str (toString n) else str (toString n)

/-- Zero-padded four-digit year of `%Y`. -/
def pad4 (n : Int) : Str :=
  let s := str (toString n)
  List.replicate (4 - s.length) '0' ++ s

/-- Proleptic-Gregorian civil date of a day number (days since
1970-01-01), following the standard era decomposition. -/
def civilFromDay (z0 : Int) : Int × Int × Int :=
  let z := z0 + 719468
  let era : Int := z.fdiv 146097
  let doe : Int := z - era * 146097
  let yoe : Int := (doe - doe.fdiv 1460 + doe.fdiv 36524 - doe.fdiv 146096).fdiv 365
  let y : Int := yoe + era * 400
  let doy : Int := doe - (365 * yoe + yoe.fdiv 4 - yoe.fdiv 100)
  let mp : Int := (5 * doy + 2).fdiv 153
  let d : Int := doy - (153 * mp + 2).fdiv 5 + 1
  let m : Int := mp + (if mp < 10 then 3 else -9)
  (y + (if m ≤ 2 then 1 else 0), m, d)

/-- Model of `dt.strftime("%Y-%m-%d %H:%M")`. -/
def strfDatetime (t : Micros) : Str :=
  let dcy := civilFromDay (t.fdiv usPerDay)
  let tod := t.emod usPerDay
  pad4 dcy.1 ++ str "-" ++ pad2 dcy.2.1 ++ str "-" ++ pad2 dcy.2.2 ++ str " " ++
    pad2 (tod.fdiv usPerHour) ++ str ":" ++ pad2 ((tod.emod usPerHour).fdiv usPerMinute)

/- ===== record shapes consumed by the response formatters ===== -/

/-- Task dictionary as read by the formatters; `none` models an absent
key (`dict.get` default) or a `None` value. -/
structure FmtTask where
  task_title : Option Str := none
  status : Option Str := none
  priority : Option Str := none
  assigned_to_name : Option Str := none
  assigned_for_name : Option Str := none
  start_date : Option Micros := none
  due_date : Option Micros := none
deriving DecidableEq, Repr

/-- Activity dictionary as read by the formatters. -/
structure FmtActivity where
  title : Option Str := none
  location : Option Str := none
  category : Option Str := none
  created_by_name : Option Str := none
  start_time : Option Micros := none
  end_time : Option Micros := none
deriving DecidableEq, Repr

/-- Resident dictionary as read by the formatters. -/
structure FmtResident where
  full_name : Option Str := none
  room_number : Option Str := none
  medical_conditions : List Str := []
  medications : List Str := []
  notes : Str := []
deriving DecidableEq, Repr

/-- The `resident` argument of `format_resident_response` is either a
list of residents or a single (possibly falsy) resident dictionary. -/
inductive ResidentArg where
  | many (rs : List FmtResident)
  | one (r : Option FmtResident)
deriving DecidableEq, Repr

namespace Config

/- Embedding of `assistant_bot/config.py` (the values the formatter
imports). -/

def MAX_MESSAGE_LENGTH : Nat := 4000

def tmpl_no_results : Str := str "No results found matching your criteria."

def tmpl_resident_not_found : Str :=
  str "Sorry, I couldn" ++ apos ++ str "t find a resident with that name."

end Config

namespace RF

/- Embedding of `assistant_bot/services/response_formatter.py`
(class `ResponseFormatter`, whose `max_length` is
`config.MAX_MESSAGE_LENGTH`). -/

/-- Method `_format_datetime` (`None` gives the unknown-time text;
a real datetime always formats successfully). -/
def format_datetime : Option Micros → Str
  | none => str "Unknown time"
  | some t => strfDatetime t

/-- Method `_truncate_response`. -/
def truncate_response (text : Str) : Str :=
  if text.length ≤ Config.MAX_MESSAGE_LENGTH then text
  else
    let tr := text.take (Config.MAX_MESSAGE_LENGTH - 100)
    let ln : Int :=
      match tr.reverse.findIdx? (· == '\n') with
      | none => -1
      | some j => (tr.length : Int) - 1 - j
    let tr2 := if (Config.MAX_MESSAGE_LENGTH : Int) - 200 < ln then tr.take ln.toNat else tr
    tr2 ++ str "\n\n...(message truncated due to length)"

/-- One iteration of the task loop in `format_task_response`. -/
def taskLine (idx : Nat) (task : FmtTask) : Str :=
  let date_str :=
    (match task.start_date with
     | some sd => format_datetime (some sd)
     | none => []) ++
    (match task.due_date with
     | some dd => str " to " ++ format_datetime (some dd)
     | none => [])
  str (toString idx) ++ str ". *" ++ task.task_title.getD (str "Untitled Task") ++
    str "*\n   Status: " ++ task.status.getD (str "Unknown") ++
    str " | Priority: " ++ task.priority.getD [] ++
    str "\n   For: " ++ task.assigned_for_name.getD (str "Not specified") ++
    str " | By: " ++ task.assigned_to_name.getD (str "Unassigned") ++
    str "\n   Time: " ++ date_str ++ str "\n\n"

/-- Header of `format_task_response`. -/
def taskHeader (n : Nat) : Str :=
  str "📋 *Found " ++ str (toString n) ++ str " tasks:*\n\n"

/-- Footer of `format_task_response` when more than 10 tasks exist. -/
def taskFooter (extra : Nat) : Str :=
  str "...and " ++ str (toString extra) ++ str " more tasks (showing first 10 only)."

/-- Method `format_task_response`. -/
def format_task_response (tasks : List FmtTask) : Str :=
  if tasks.isEmpty then Config.tmpl_no_results
  else
    let response := (List.enumFrom 1 (tasks.take 10)).foldl
      (fun acc p => acc ++ taskLine p.1 p.2) (taskHeader tasks.length)
    let response := if 10 < tasks.length then response ++ taskFooter (tasks.length - 10)
      else response
    truncate_response response

/-- One iteration of the activity loop in `format_activity_response`. -/
def activityLine (idx : Nat) (a : FmtActivity) : Str :=
  let time_str :=
    (match a.start_time with
     | some st => format_datetime (some st)
     | none => []) ++
    (match a.end_time with
     | some et => str " to " ++ format_datetime (some et)
     | none => [])
  str (toString idx) ++ str ". *" ++ a.title.getD (str "Untitled Activity") ++
    str "*\n   Category: " ++ a.category.getD (str "Uncategorized") ++
    str " | Location: " ++ a.location.getD (str "No location") ++
    str "\n   Created by: " ++ a.created_by_name.getD (str "Unknown") ++
    str "\n   Time: " ++ time_str ++ str "\n\n"

/-- Header of `format_activity_response`. -/
def activityHeader (n : Nat) : Str :=
  str "🗓️ *Found " ++ str (toString n) ++ str " activities:*\n\n"

/-- Footer of `format_activity_response`. -/
def activityFooter (extra : Nat) : Str :=
  str "...and " ++ str (toString extra) ++ str " more activities (showing first 10 only)."

/-- Method `format_activity_response`. -/
def format_activity_response (activities : List FmtActivity) : Str :=
  if activities.isEmpty then Config.tmpl_no_results
  else
    let response := (List.enumFrom 1 (activities.take 10)).foldl
      (fun acc p => acc ++ activityLine p.1 p.2) (activityHeader activities.length)
    let response := if 10 < activities.length then
        response ++ activityFooter (activities.length - 10)
      else response
    truncate_response response

/-- One line of the many-residents branch. -/
def residentLine (idx : Nat) (r : FmtResident) : Str :=
  str (toString idx) ++ str ". *" ++ r.full_name.getD (str "Unknown") ++
    str "* (Room: " ++ r.room_number.getD (str "Unknown") ++ str ")\n\n"

/-- Header of the many-residents branch. -/
def residentHeader (n : Nat) : Str :=
  str "👥 *Found " ++ str (toString n) ++ str " residents:*\n\n"

/-- Footer of the many-residents branch. -/
def residentFooter (extra : Nat) : Str :=
  str "...and " ++ str (toString extra) ++ str " more residents (showing first 10 only)."

/-- One line of the recent-tasks block in a single-resident profile. -/
def profileTaskLine (idx : Nat) (task : FmtTask) : Str :=
  let date_str :=
    match task.start_date with
    | some sd => format_datetime (some sd)
    | none => str "Unknown"
  str (toString idx) ++ str ". *" ++ task.task_title.getD (str "Untitled Task") ++
    str "*\n   Status: " ++ task.status.getD (str "Unknown") ++
    str " | Assigned to: " ++ task.assigned_to_name.getD (str "Unassigned") ++
    str "\n   Time: " ++ date_str ++ str "\n\n"

/-- Footer of the recent-tasks block when more than 5 tasks exist. -/
def profileTaskFooter (extra : Nat) : Str :=
  str "...and " ++ str (toString extra) ++ str " more tasks (showing first 5 only)."

/-- Profile text of a single resident, before the task block. -/
def profileHead (r : FmtResident) : Str :=
  str "👤 *Resident Profile: " ++ r.full_name.getD (str "Unknown") ++ str "*\n" ++
  str "Room: " ++ r.room_number.getD (str "Unknown") ++ str "\n" ++
  (if r.medical_conditions.isEmpty then []
   else str "Medical Conditions: " ++ List.intercalate (str ", ") r.medical_conditions ++ str "\n") ++
  (if r.medications.isEmpty then []
   else str "Medications: " ++ List.intercalate (str ", ") r.medications ++ str "\n") ++
  (if r.notes.isEmpty then [] else str "Notes: " ++ r.notes ++ str "\n") ++
  str "\n"

/-- Recent-tasks block of a single-resident profile. -/
def profileTasks (name : Str) (tasks : List FmtTask) : Str :=
  if tasks.isEmpty then str "No recent tasks found for this resident."
  else
    let block := (List.enumFrom 1 (tasks.take 5)).foldl
      (fun acc p => acc ++ profileTaskLine p.1 p.2)
      (str "*Recent tasks for " ++ name ++ str ":*\n\n")
    if 5 < tasks.length then block ++ profileTaskFooter (tasks.length - 5) else block

/-- Method `format_resident_response`. -/
def format_resident_response (resident : ResidentArg) (tasks : List FmtTask) : Str :=
  match resident with
  | .many rs =>
    if rs.isEmpty then Config.tmpl_resident_not_found
    else
      let response := (List.enumFrom 1 (rs.take 10)).foldl
        (fun acc p => acc ++ residentLine p.1 p.2) (residentHeader rs.length)
      let response := if 10 < rs.length then response ++ residentFooter (rs.length - 10)
        else response
      truncate_response response
  | .one none => Config.tmpl_resident_not_found
  | .one (some r) =>
    truncate_response
      (profileHead r ++ profileTasks (r.full_name.getD (str "Unknown")) tasks)

end RF

namespace RH

/- Embedding of `assistant_bot/handlers/response_handler.py`, the
module-level copy of the formatter; it defines its own constants with
the same values as `config.py` and repeats the method bodies. -/

def MAX_MESSAGE_LENGTH : Nat := 4000

def tmpl_no_results : Str := str "No results found matching your criteria."

def tmpl_resident_not_found : Str :=
  str "Sorry, I couldn" ++ apos ++ str "t find a resident with that name."

/-- Function `format_datetime`. -/
def format_datetime : Option Micros → Str
  | none => str "Unknown time"
  | some t => strfDatetime t

/-- Function `truncate_response`. -/
def truncate_response (text : Str) : Str :=
  if text.length ≤ MAX_MESSAGE_LENGTH then text
  else
    let tr := text.take (MAX_MESSAGE_LENGTH - 100)
    let ln : Int :=
      match tr.reverse.findIdx? (· == '\n') with
      | none => -1
      | some j => (tr.length : Int) - 1 - j
    let tr2 := if (MAX_MESSAGE_LENGTH : Int) - 200 < ln then tr.take ln.toNat else tr
    tr2 ++ str "\n\n...(message truncated due to length)"

/-- One iteration of the task loop in the module-level
`format_task_response`. -/
def taskLine (idx : Nat) (task : FmtTask) : Str :=
  let date_str :=
    (match task.start_date with
     | some sd => format_datetime (some sd)
     | none => []) ++
    (match task.due_date with
     | some dd => str " to " ++ format_datetime (some dd)
     | none => [])
  str (toString idx) ++ str ". *" ++ task.task_title.getD (str "Untitled Task") ++
    str "*\n   Status: " ++ task.status.getD (str "Unknown") ++
    str " | Priority: " ++ task.priority.getD [] ++
    str "\n   For: " ++ task.assigned_for_name.getD (str "Not specified") ++
    str " | By: " ++ task.assigned_to_name.getD (str "Unassigned") ++
    str "\n   Time: " ++ date_str ++ str "\n\n"

/-- Function `format_task_response`. -/
def format_task_response (tasks : List FmtTask) : Str :=
  if tasks.isEmpty then tmpl_no_results
  else
    let response := (List.enumFrom 1 (tasks.take 10)).foldl
      (fun acc p => acc ++ taskLine p.1 p.2)
      (str "📋 *Found " ++ str (toString tasks.length) ++ str " tasks:*\n\n")
    let response := if 10 < tasks.length then
        response ++ (str "...and " ++ str (toString (tasks.length - 10)) ++
          str " more tasks (showing first 10 only).")
      else response
    truncate_response response

/-- One iteration of the activity loop in the module-level
`format_activity_response`. -/
def activityLine (idx : Nat) (a : FmtActivity) : Str :=
  let time_str :=
    (match a.start_time with
     | some st => format_datetime (some st)
     | none => []) ++
    (match a.end_time with
     | some et => str " to " ++ format_datetime (some et)
     | none => [])
  str (toString idx) ++ str ". *" ++ a.title.getD (str "Untitled Activity") ++
    str "*\n   Category: " ++ a.category.getD (str "Uncategorized") ++
    str " | Location: " ++ a.location.getD (str "No location") ++
    str "\n   Created by: " ++ a.created_by_name.getD (str "Unknown") ++
    str "\n   Time: " ++ time_str ++ str "\n\n"

/-- Function `format_activity_response`. -/
def format_activity_response (activities : List FmtActivity) : Str :=
  if activities.isEmpty then tmpl_no_results
  else
    let response := (List.enumFrom 1 (activities.take 10)).foldl
      (fun acc p => acc ++ activityLine p.1 p.2)
      (str "🗓️ *Found " ++ str (toString activities.length) ++ str " activities:*\n\n")
    let response := if 10 < activities.length then
        response ++ (str "...and " ++ str (toString (activities.length - 10)) ++
          str " more activities (showing first 10 only).")
      else response
    truncate_response response

/-- Function `format_resident_response`. -/
def format_resident_response (resident : ResidentArg) (tasks : List FmtTask) : Str :=
  match resident with
  | .many rs =>
    if rs.isEmpty then tmpl_resident_not_found
    else
      let response := (List.enumFrom 1 (rs.take 10)).foldl
        (fun acc p => acc ++
          (str (toString p.1) ++ str ". *" ++ p.2.full_name.getD (str "Unknown") ++
           str "* (Room: " ++ p.2.room_number.getD (str "Unknown") ++ str ")\n\n"))
        (str "👥 *Found " ++ str (toString rs.length) ++ str " residents:*\n\n")
      let response := if 10 < rs.length then
          response ++ (str "...and " ++ str (toString (rs.length - 10)) ++
            str " more residents (showing first 10 only).")
        else response
      truncate_response response
  | .one none => tmpl_resident_not_found
  | .one (some r) =>
    let head :=
      str "👤 *Resident Profile: " ++ r.full_name.getD (str "Unknown") ++ str "*\n" ++
      str "Room: " ++ r.room_number.getD (str "Unknown") ++ str "\n" ++
      (if r.medical_conditions.isEmpty then []
       else str "Medical Conditions: " ++
         List.intercalate (str ", ") r.medical_conditions ++ str "\n") ++
      (if r.medications.isEmpty then []
       else str "Medications: " ++ List.intercalate (str ", ") r.medications ++ str "\n") ++
      (if r.notes.isEmpty then [] else str "Notes: " ++ r.notes ++ str "\n") ++
      str "\n"
    let block :=
      if tasks.isEmpty then str "No recent tasks found for this resident."
      else
        let b := (List.enumFrom 1 (tasks.take 5)).foldl
          (fun acc p => acc ++
            (str (toString p.1) ++ str ". *" ++ p.2.task_title.getD (str "Untitled Task") ++
             str "*\n   Status: " ++ p.2.status.getD (str "Unknown") ++
             str " | Assigned to: " ++ p.2.assigned_to_name.getD (str "Unassigned") ++
             str "\n   Time: " ++
             (match p.2.start_date with
              | some sd => format_datetime (some sd)
              | none => str "Unknown") ++ str "\n\n"))
          (str "*Recent tasks for " ++ r.full_name.getD (str "Unknown") ++ str ":*\n\n")
        if 5 < tasks.length then
          b ++ (str "...and " ++ str (toString (tasks.length - 5)) ++
            str " more tasks (showing first 5 only).")
        else b
    truncate_response (head ++ block)

end RH

namespace Rem

/- Embedding of the reminders-bot polling services. The functions
`process_events` (activity_service.py) and `process_task_reminders`
(task_service.py) have the same shape and differ only in dictionary
keys (`start_time`/`start_date`, `reminder_minutes`/`remind_prior`,
`created_by`/`assigned_to`); both are instances of the core below.
The backend is modelled by the full record list `recs` together with
the set `marked` of record ids whose `reminder_sent` flag is set; a
fetch filters by creator and snapshots the flags, and the PATCH of
`mark_reminder_sent` adds an id to `marked`. Telegram sends are
recorded as `(record id, chat id)` pairs. -/

/-- A record processed by the reminder poller: an activity
(`id`, `created_by`, `start_time`, `reminder_minutes`) or a task
(`id`, `assigned_to`, `start_date`, `remind_prior`). -/
structure RRec where
  rid : Nat
  creator : Nat
  start : Micros
  lead : Option Int := none
deriving DecidableEq, Repr

/-- The reminder lead time in minutes, defaulting to 5 when the record
has no `reminder_minutes` / `remind_prior` value. -/
def leadOf (r : RRec) : Int := r.lead.getD 5

/-- The send condition of the polling loops:
`now_utc >= reminder_time and now_utc < start_time and not
record.get("reminder_sent", False)`, where
`reminder_time = start_time - timedelta(minutes=lead)`. -/
def remDue (now : Micros) (r : RRec) (sentFlag : Bool) : Bool :=
  decide (r.start - leadOf r * usPerMinute ≤ now) && decide (now < r.start) && !sentFlag

/-- A fetch for one user: the backend filters by creator and reports
each record with the current value of its `reminder_sent` flag. -/
def fetchFor (recs : List RRec) (u : Nat) (marked : List Nat) : List (RRec × Bool) :=
  (recs.filter (fun r => r.creator == u)).map (fun r => (r, marked.contains r.rid))

/-- Model of the `mark_reminder_sent` PATCH: the backend sets the flag
of the given record id. -/
def mark_reminder_sent (marked : List Nat) (rid : Nat) : List Nat := rid :: marked

/-- The loop body for one user: every fetched record whose snapshot
satisfies the send condition is sent to the user's chat, and each sent
record is marked on the backend. -/
def pollUser (now : Micros) (recs : List RRec) (u chat : Nat) (marked : List Nat) :
    List Nat × List (Nat × Nat) :=
  let sent := ((fetchFor recs u marked).filter (fun p => remDue now p.1 p.2)).map (·.1)
  (sent.foldr (fun r m => mark_reminder_sent m r.rid) marked,
   sent.map (fun r => (r.rid, chat)))

/-- One polling iteration: the loop over `user_chat_map.items()`,
threading the backend flag state from user to user (the PATCH of an
earlier user is visible to a later user's fetch). -/
def pollIter (now : Micros) (recs : List RRec) :
    List (Nat × Nat) → List Nat → List Nat × List (Nat × Nat)
  | [], marked => (marked, [])
  | uc :: rest, marked =>
    let step := pollUser now recs uc.1 uc.2 marked
    let further := pollIter now recs rest step.1
    (further.1, step.2 ++ further.2)

/-- A run of the poller: one iteration per entry of `times`, threading
backend state across iterations. -/
def pollRun (recs : List RRec) (chats : List (Nat × Nat)) :
    List Micros → List Nat → List Nat × List (Nat × Nat)
  | [], marked => (marked, [])
  | now :: ts, marked =>
    let step := pollIter now recs chats marked
    let further := pollRun recs chats ts step.1
    (further.1, step.2 ++ further.2)

/-- `process_events` of `reminders_bot/services/activity_service.py`,
one scheduler invocation (records are activities). -/
def process_events (now : Micros) (recs : List RRec) (chats : List (Nat × Nat))
    (marked : List Nat) : List Nat × List (Nat × Nat) :=
  pollIter now recs chats marked

/-- `process_task_reminders` of
`reminders_bot/services/task_service.py`, one scheduler invocation
(records are tasks). -/
def process_task_reminders (now : Micros) (recs : List RRec) (chats : List (Nat × Nat))
    (marked : List Nat) : List Nat × List (Nat × Nat) :=
  pollIter now recs chats marked

end Rem

namespace Fall

/- Embedding of `reminders_bot/services/fall_detection_service.py`. -/

/-- A fall log as fetched from the backend. -/
structure FallLog where
  fid : Option Nat := none
  resident_id : Str := []
  status : Str := []
  timestamp : Micros := 0
  acceleration : Int := 0
deriving DecidableEq, Repr

/-- A sent fall alert: the message data of `send_fall_alert`, with
`keyboard` recording whether the confirm / false-alarm inline keyboard
was attached. -/
structure FallAlert where
  chat : Nat
  resident_id : Str
  status : Str
  timestamp : Micros
  acceleration : Int
  fall_id : Option Nat
  keyboard : Bool
deriving DecidableEq, Repr

/-- Function `send_fall_alert`: the keyboard is attached exactly when
the status is `pending` and a fall id is present. -/
def send_fall_alert (log : FallLog) (chat : Nat) : FallAlert :=
  { chat := chat, resident_id := log.resident_id, status := log.status,
    timestamp := log.timestamp, acceleration := log.acceleration,
    fall_id := log.fid,
    keyboard := log.status == str "pending" && log.fid.isSome }

/-- Function `process_fall_alerts`, one scheduler invocation: logs
whose status is neither `pending` nor `confirmed` are skipped, logs
older than five minutes are skipped, and every remaining log is sent
to every chat of `user_chat_map`. -/
def process_fall_alerts (now : Micros) (logs : List FallLog)
    (chats : List (Nat × Nat)) : List FallAlert :=
  logs.flatMap (fun log =>
    if !(log.status == str "pending" || log.status == str "confirmed") then []
    else if log.timestamp < now - 5 * usPerMinute then []
    else chats.map (fun uc => send_fall_alert log uc.2))

/-- A run of the fall poller: one invocation per entry of `times`; the
service keeps no state between iterations. -/
def fallRun (logs : List FallLog) (chats : List (Nat × Nat)) : List Micros → List FallAlert
  | [] => []
  | now :: ts => process_fall_alerts now logs chats ++ fallRun logs chats ts

end Fall

/- ===== HTTP boundary models for the fetch functions ===== -/

/-- Outcome at an HTTP boundary call: either an exception was raised
somewhere in the `try` block, or a response arrived with a status code
and a parsed JSON body. -/
inductive Fetched (α : Type) where
  | exc : Fetched α
  | resp (status : Nat) (body : List α) : Fetched α
deriving DecidableEq, Repr

/-- Lexicographic `<` on Python strings (code-point order). -/
def strLt : Str → Str → Bool
  | [], [] => false
  | [], _ :: _ => true
  | _ :: _, [] => false
  | a :: as, b :: bs => a < b || (a == b && strLt as bs)

/-- Lexicographic `<=` on Python strings. -/
def strLe (a b : Str) : Bool := strLt a b || a == b

/-- A medication dictionary as read by `fetch_medications`; the date
fields are `%Y-%m-%d` strings compared lexicographically. -/
structure MedRec where
  start_date : Str := []
  end_date : Str := []
  schedule_type : Str := []
deriving DecidableEq, Repr

namespace Boundary

/-- `fetch_tasks` of `reminders_bot/services/task_service.py`: the body
on status 200, the empty list on any other status or on an exception. -/
def fetch_tasks {τ : Type} : Fetched τ → List τ
  | .exc => []
  | .resp status body => if status = 200 then body else []

/-- `fetch_activities` of `reminders_bot/services/activity_service.py`:
on status 200 the body restricted to activities starting within the
next two days, otherwise the empty list. -/
def fetch_activities (now : Micros) : Fetched Rem.RRec → List Rem.RRec
  | .exc => []
  | .resp status body =>
    if status = 200 then body.filter (fun a => decide (a.start ≤ now + 2 * usPerDay))
    else []

/-- `fetch_residents` of `reminders_bot/services/medication_service.py`. -/
def fetch_residents {ρ : Type} : Fetched ρ → List ρ
  | .exc => []
  | .resp status body => if status = 200 then body else []

/-- `fetch_medications` of
`reminders_bot/services/medication_service.py`: on status 200 the
currently active, non-custom medications, otherwise the empty list. -/
def fetch_medications (current_date : Str) : Fetched MedRec → List MedRec
  | .exc => []
  | .resp status body =>
    if status = 200 then
      (body.filter (fun m =>
        strLe m.start_date current_date && strLt current_date m.end_date)).filter
        (fun m => !(m.schedule_type == str "custom"))
    else []

/-- `fetch_fall_logs` of
`reminders_bot/services/fall_detection_service.py`. -/
def fetch_fall_logs : Fetched Fall.FallLog → List Fall.FallLog
  | .exc => []
  | .resp status body => if status = 200 then body else []

end Boundary

namespace Auth

/- Embedding of `auth/user_auth.py`. -/

/-- A document of the `users` collection, with the fields the
decorator reads. -/
structure UserRec where
  mongo_id : Str
  name : Str
  email : Str
  role : Str
  telegram_handle : Str
deriving DecidableEq, Repr

/-- The values stored into `context.user_data`. -/
structure UserData where
  id : Str
  name : Str
  email : Str
  role : Str
deriving DecidableEq, Repr

/-- Observable outcome of one invocation of a handler wrapped by
`restricted`: whether the wrapped handler body ran, whether the
not-authorized reply was sent, and what was stored in
`context.user_data` beforehand. -/
structure AuthOutcome where
  handlerCalled : Bool
  notAuthReply : Bool
  user_data : Option UserData
deriving DecidableEq, Repr

/-- `users_collection.find_one({"telegram_handle": username})`. -/
def find_one (users : List UserRec) (handle : Str) : Option UserRec :=
  users.find? (fun u => u.telegram_handle == handle)

/-- The wrapper produced by the `restricted` decorator, for a sender
whose Telegram username is `username` against the `users` collection. -/
def restricted (users : List UserRec) (username : Str) : AuthOutcome :=
  match find_one users username with
  | none => { handlerCalled := false, notAuthReply := true, user_data := none }
  | some u =>
    { handlerCalled := true, notAuthReply := false,
      user_data := some { id := u.mongo_id, name := u.name, email := u.email, role := u.role } }

end Auth

/- ===== theorems ===== -/

/-- C5: every boundary fetch of the reminders bot returns the empty
list both on a non-200 HTTP status and on an exception, and the
`except` branch of `parse_query` returns `general_question` with empty
`time_range` and `filters` dictionaries. -/
theorem C5_boundary_failures_give_empty_results (τ ρ : Type) (s : Nat) (hs : s ≠ 200)
    (bt : List τ) (br : List ρ) (ba : List Rem.RRec) (bm : List MedRec)
    (bf : List Fall.FallLog) (now : Micros) (d : Str) (e : Unit) :
    Boundary.fetch_tasks .exc = ([] : List τ) ∧
    Boundary.fetch_tasks (.resp s bt) = [] ∧
    Boundary.fetch_activities now .exc = [] ∧
    Boundary.fetch_activities now (.resp s ba) = [] ∧
    Boundary.fetch_medications d .exc = [] ∧
    Boundary.fetch_medications d (.resp s bm) = [] ∧
    Boundary.fetch_residents .exc = ([] : List ρ) ∧
    Boundary.fetch_residents (.resp s br) = [] ∧
    Boundary.fetch_fall_logs .exc = [] ∧
    Boundary.fetch_fall_logs (.resp s bf) = [] ∧
    QP.parse_query_onError e = ("general_question", { time_range := none, filters := {} }) := by
  refine ⟨rfl, ?_, rfl, ?_, rfl, ?_, rfl, ?_, rfl, ?_, rfl⟩ <;>
    simp [Boundary.fetch_tasks, Boundary.fetch_activities, Boundary.fetch_medications,
      Boundary.fetch_residents, Boundary.fetch_fall_logs, hs]

/-- C5 witness: the failure paths at concrete inputs. -/
theorem C5_boundary_failures_witness :
    Boundary.fetch_tasks (.resp 500 [(3 : Nat)]) = [] ∧
    Boundary.fetch_fall_logs (.resp 404 [{ fid := some 1 }]) = [] ∧
    QP.parse_query_onError () = ("general_question", { time_range := none, filters := {} }) := by
  have h := C5_boundary_failures_give_empty_results Nat Nat 500 (by decide)
    [(3 : Nat)] [] [] [] [{ fid := some 1 }] 0 [] ()
  have h404 := C5_boundary_failures_give_empty_results Nat Nat 404 (by decide)
    [] [] [] [] [{ fid := some 1 }] 0 [] ()
  exact ⟨h.2.1, h404.2.2.2.2.2.2.2.2.2.1, h.2.2.2.2.2.2.2.2.2.2⟩

/-- C8: a handler wrapped by the `restricted` decorator runs exactly
when the users collection holds a record whose `telegram_handle`
equals the sender's username; with no such record the not-authorized
reply is sent and nothing is stored, and with one the matched record's
id, name, email and role are stored in `context.user_data` before the
handler runs. -/
theorem C8_restricted_gates_handlers (users : List Auth.UserRec) (username : Str) :
    ((Auth.restricted users username).handlerCalled = true ↔
      ∃ u ∈ users, u.telegram_handle = username) ∧
    (Auth.find_one users username = none →
      (Auth.restricted users username).notAuthReply = true ∧
      (Auth.restricted users username).handlerCalled = false ∧
      (Auth.restricted users username).user_data = none) ∧
    (∀ u, Auth.find_one users username = some u →
      (Auth.restricted users username).handlerCalled = true ∧
      (Auth.restricted users username).notAuthReply = false ∧
      (Auth.restricted users username).user_data =
        some { id := u.mongo_id, name := u.name, email := u.email, role := u.role }) := by
  refine ⟨?_, ?_, ?_⟩
  · constructor
    · intro h
      have hsome : (Auth.find_one users username).isSome = true := by
        unfold Auth.restricted at h
        cases hf : Auth.find_one users username with
        | none => rw [hf] at h; simp at h
        | some u => simp [hf]
      rw [Auth.find_one, List.find?_isSome] at hsome
      obtain ⟨u, hu, hbeq⟩ := hsome
      exact ⟨u, hu, by simpa using hbeq⟩
    · rintro ⟨u, hu, hequ⟩
      have hsome : (Auth.find_one users username).isSome = true := by
        rw [Auth.find_one, List.find?_isSome]
        exact ⟨u, hu, by simpa using hequ⟩
      unfold Auth.restricted
      cases hf : Auth.find_one users username with
      | none => rw [hf] at hsome; simp at hsome
      | some v => simp
  · intro hf
    unfold Auth.restricted
    rw [hf]
    exact ⟨rfl, rfl, rfl⟩
  · intro u hf
    unfold Auth.restricted
    rw [hf]
    exact ⟨rfl, rfl, rfl⟩

/-- C8 witness: with the collection containing exactly the handle
`amy`, the sender `amy` is let through with her data stored, at a
concrete input. -/
theorem C8_restricted_witness :
    (Auth.restricted [⟨str "1", str "Amy", str "a", str "nurse", str "amy"⟩]
        (str "amy")).user_data =
      some ⟨str "1", str "Amy", str "a", str "nurse"⟩ := by
  have h := (C8_restricted_gates_handlers
      [⟨str "1", str "Amy", str "a", str "nurse", str "amy"⟩] (str "amy")).2.2
      ⟨str "1", str "Amy", str "a", str "nurse", str "amy"⟩ (by decide)
  exact h.2.2

set_option maxHeartbeats 2000000 in
/-- C9: the module-level parser of `handlers/query_handler.py` and the
class-based parser of `services/query_parser.py` agree on every input
(for any fixed current time), and likewise the module-level formatters
of `handlers/response_handler.py` agree with the `ResponseFormatter`
methods on every input. -/
theorem C9_handler_and_service_copies_agree :
    QP.parse_query = QH.parse_query ∧
    QP.extract_time_range = QH.extract_time_range ∧
    QP.extract_task_filters = QH.extract_task_filters ∧
    QP.extract_activity_filters = QH.extract_activity_filters ∧
    QP.extract_resident_name = QH.extract_resident_name ∧
    QP.is_resident_query = QH.is_resident_query ∧
    RF.format_task_response = RH.format_task_response ∧
    RF.format_activity_response = RH.format_activity_response ∧
    RF.format_resident_response = RH.format_resident_response ∧
    RF.truncate_response = RH.truncate_response ∧
    RF.format_datetime = RH.format_datetime :=
  ⟨rfl, rfl, rfl, rfl, rfl, rfl, rfl, rfl, rfl, rfl, rfl⟩

lemma truncate_long (text : Str) (h : ¬ text.length ≤ 4000) :
    ∃ cut : Str,
      RF.truncate_response text = cut ++ str "\n\n...(message truncated due to length)" ∧
        cut.length ≤ 3900 := by
  rw [RF.truncate_response,
    if_neg (show ¬ text.length ≤ Config.MAX_MESSAGE_LENGTH from h)]
  refine ⟨_, rfl, ?_⟩
  have htr : (List.take (Config.MAX_MESSAGE_LENGTH - 100) text).length ≤ 3900 :=
    le_trans (List.length_take_le _ _) (by norm_num [Config.MAX_MESSAGE_LENGTH])
  split
  · rw [List.length_take]
    exact le_trans (min_le_right _ _) htr
  · exact htr

/-- C6: `_truncate_response` never returns more than
`MAX_MESSAGE_LENGTH = 4000` characters: short messages pass through
unchanged, and long ones are cut to at most 3900 characters and
suffixed with the fixed truncation notice. -/
theorem C6_truncation_bound (text : Str) :
    (RF.truncate_response text).length ≤ Config.MAX_MESSAGE_LENGTH ∧
    (text.length ≤ 4000 → RF.truncate_response text = text) ∧
    (4000 < text.length →
      ∃ cut : Str,
        RF.truncate_response text = cut ++ str "\n\n...(message truncated due to length)" ∧
          cut.length ≤ 3900) := by
  by_cases h : text.length ≤ 4000
  · have he : RF.truncate_response text = text := by
      rw [RF.truncate_response,
        if_pos (show text.length ≤ Config.MAX_MESSAGE_LENGTH from h)]
    exact ⟨by rw [he]; exact h, fun _ => he, fun hlt => absurd hlt (by omega)⟩
  · obtain ⟨cut, hcut, hlen⟩ := truncate_long text h
    refine ⟨?_, fun hc => absurd hc h, fun _ => ⟨cut, hcut, hlen⟩⟩
    rw [hcut, List.length_append]
    have hs : (str "\n\n...(message truncated due to length)").length = 38 := rfl
    rw [hs]
    show cut.length + 38 ≤ 4000
    omega

/-- C6 witness: a short text passes through unchanged, and a 5000
character text is truncated to the 3900 character prefix plus the
38 character notice. -/
theorem C6_truncation_witness :
    RF.truncate_response (str "hello") = str "hello" ∧
    (RF.truncate_response (List.replicate 5000 'y')).length ≤ Config.MAX_MESSAGE_LENGTH := by
  refine ⟨(C6_truncation_bound (str "hello")).2.1 (by decide), ?_⟩
  exact (C6_truncation_bound (List.replicate 5000 'y')).1

/-- C3: `parse_query` chooses its intent from the four known intents by
the ordered rules of the source: the today-and-task special case first
(with today's time range and empty filters), then the task word
pattern, then the activity/upcoming/scheduled pattern, then the
resident-query test, and otherwise `general_question`; the returned
parameters always carry both the `time_range` and `filters` keys
(recorded by the `Params` structure, which a result always inhabits). -/
theorem C3_parse_query_intents (now : Micros) (text : Str) :
    ((QP.parse_query now text).1 = "task_query" ∨
     (QP.parse_query now text).1 = "activity_query" ∨
     (QP.parse_query now text).1 = "resident_query" ∨
     (QP.parse_query now text).1 = "general_question") ∧
    ((listSub (str "today") (lowerStr (stripStr text)) &&
        (listSub (str "task") (lowerStr (stripStr text)) ||
         listSub (str "tasks") (lowerStr (stripStr text)))) = true →
      QP.parse_query now text =
        ("task_query", { time_range := some (QP.get_today_range now), filters := {} })) ∧
    ((listSub (str "today") (lowerStr (stripStr text)) &&
        (listSub (str "task") (lowerStr (stripStr text)) ||
         listSub (str "tasks") (lowerStr (stripStr text)))) = false →
      (wordSearch (str "task") (lowerStr (stripStr text)) ||
        wordSearch (str "tasks") (lowerStr (stripStr text))) = true →
      (QP.parse_query now text).1 = "task_query") ∧
    ((listSub (str "today") (lowerStr (stripStr text)) &&
        (listSub (str "task") (lowerStr (stripStr text)) ||
         listSub (str "tasks") (lowerStr (stripStr text)))) = false →
      (wordSearch (str "task") (lowerStr (stripStr text)) ||
        wordSearch (str "tasks") (lowerStr (stripStr text))) = false →
      (wordSearch (str "activity") (lowerStr (stripStr text)) ||
        wordSearch (str "activities") (lowerStr (stripStr text)) ||
        wordSearch (str "upcoming") (lowerStr (stripStr text)) ||
        wordSearch (str "scheduled") (lowerStr (stripStr text))) = true →
      (QP.parse_query now text).1 = "activity_query") ∧
    ((listSub (str "today") (lowerStr (stripStr text)) &&
        (listSub (str "task") (lowerStr (stripStr text)) ||
         listSub (str "tasks") (lowerStr (stripStr text)))) = false →
      (wordSearch (str "task") (lowerStr (stripStr text)) ||
        wordSearch (str "tasks") (lowerStr (stripStr text))) = false →
      (wordSearch (str "activity") (lowerStr (stripStr text)) ||
        wordSearch (str "activities") (lowerStr (stripStr text)) ||
        wordSearch (str "upcoming") (lowerStr (stripStr text)) ||
        wordSearch (str "scheduled") (lowerStr (stripStr text))) = false →
      QP.is_resident_query (lowerStr (stripStr text)) = true →
      (QP.parse_query now text).1 = "resident_query") ∧
    ((listSub (str "today") (lowerStr (stripStr text)) &&
        (listSub (str "task") (lowerStr (stripStr text)) ||
         listSub (str "tasks") (lowerStr (stripStr text)))) = false →
      (wordSearch (str "task") (lowerStr (stripStr text)) ||
        wordSearch (str "tasks") (lowerStr (stripStr text))) = false →
      (wordSearch (str "activity") (lowerStr (stripStr text)) ||
        wordSearch (str "activities") (lowerStr (stripStr text)) ||
        wordSearch (str "upcoming") (lowerStr (stripStr text)) ||
        wordSearch (str "scheduled") (lowerStr (stripStr text))) = false →
      QP.is_resident_query (lowerStr (stripStr text)) = false →
      QP.parse_query now text =
        ("general_question", { time_range := none, filters := {} })) ∧
    (∃ tr fl, (QP.parse_query now text).2 = { time_range := tr, filters := fl }) := by
  refine ⟨?_, ?_, ?_, ?_, ?_, ?_, ⟨_, _, rfl⟩⟩
  · simp only [QP.parse_query]
    split_ifs <;> simp
  · intro h1
    simp only [QP.parse_query]
    rw [if_pos h1]
  · intro h1 h2
    simp only [QP.parse_query]
    rw [if_neg (by simp [h1]), if_pos h2]
  · intro h1 h2 h3
    simp only [QP.parse_query]
    rw [if_neg (by simp [h1]), if_neg (by simp [h2])]
    rw [show (wordSearch (str "activity") (lowerStr (stripStr text)) ||
        wordSearch (str "activities") (lowerStr (stripStr text)) ||
        wordSearch (str "upcoming") (lowerStr (stripStr text)) ||
        wordSearch (str "scheduled") (lowerStr (stripStr text))) = true from h3]
    simp
  · intro h1 h2 h3 h4
    simp only [QP.parse_query]
    rw [if_neg (by simp [h1]), if_neg (by simp [h2]), if_neg (by simp [h3]), if_pos h4]
  · intro h1 h2 h3 h4
    simp only [QP.parse_query]
    rw [if_neg (by simp [h1]), if_neg (by simp [h2]), if_neg (by simp [h3]),
      if_neg (by simp [h4])]

/-- C3 witness: concrete messages exercising the rules, with every
hypothesis evaluated. -/
theorem C3_parse_query_witness :
    QP.parse_query 0 (str "my tasks today") =
      ("task_query", { time_range := some (QP.get_today_range 0), filters := {} }) ∧
    (QP.parse_query 0 (str "what is upcoming")).1 = "activity_query" ∧
    QP.parse_query 0 (str "hello there my good friend nothing here matches at all") =
      ("general_question", { time_range := none, filters := {} }) := by
  refine ⟨(C3_parse_query_intents 0 (str "my tasks today")).2.1 (by decide), ?_, ?_⟩
  · exact (C3_parse_query_intents 0 (str "what is upcoming")).2.2.2.1
      (by decide) (by decide) (by decide)
  · exact (C3_parse_query_intents 0
      (str "hello there my good friend nothing here matches at all")).2.2.2.2.2.1
      (by decide) (by decide) (by decide) (by decide)

/-- C4: `_extract_time_range` tries today, tomorrow, yesterday,
this week and last-N-hours in this order and returns the first match
(the empty dictionary, modelled as `none`, when none match); a
last-N-hours match yields now minus N hours up to now, and the today
range runs from 00:00:00 to 23:59:59.999999 of the current day
(`usPerDay - 1` microseconds after the day's start). -/
theorem C4_time_range_extraction (now : Micros) (text : Str) (n : Nat) :
    (wordSearch (str "today") (lowerStr text) = true →
      QP.extract_time_range now text = some (QP.get_today_range now)) ∧
    (wordSearch (str "today") (lowerStr text) = false →
      wordSearch (str "tomorrow") (lowerStr text) = true →
      QP.extract_time_range now text = some (QP.get_tomorrow_range now)) ∧
    (wordSearch (str "today") (lowerStr text) = false →
      wordSearch (str "tomorrow") (lowerStr text) = false →
      wordSearch (str "yesterday") (lowerStr text) = true →
      QP.extract_time_range now text = some (QP.get_yesterday_range now)) ∧
    (wordSearch (str "today") (lowerStr text) = false →
      wordSearch (str "tomorrow") (lowerStr text) = false →
      wordSearch (str "yesterday") (lowerStr text) = false →
      wordSearch (str "this week") (lowerStr text) = true →
      QP.extract_time_range now text = some (QP.get_this_week_range now)) ∧
    (wordSearch (str "today") (lowerStr text) = false →
      wordSearch (str "tomorrow") (lowerStr text) = false →
      wordSearch (str "yesterday") (lowerStr text) = false →
      wordSearch (str "this week") (lowerStr text) = false →
      lastHoursSearch (lowerStr text) = some n →
      QP.extract_time_range now text = some (now - n * usPerHour, now)) ∧
    (wordSearch (str "today") (lowerStr text) = false →
      wordSearch (str "tomorrow") (lowerStr text) = false →
      wordSearch (str "yesterday") (lowerStr text) = false →
      wordSearch (str "this week") (lowerStr text) = false →
      lastHoursSearch (lowerStr text) = none →
      QP.extract_time_range now text = none) ∧
    QP.get_today_range now = (dayFloor now, dayFloor now + (usPerDay - 1)) := by
  refine ⟨?_, ?_, ?_, ?_, ?_, ?_, ?_⟩
  · intro h1
    simp only [QP.extract_time_range]
    rw [if_pos h1]
  · intro h1 h2
    simp only [QP.extract_time_range]
    rw [if_neg (by simp [h1]), if_pos h2]
  · intro h1 h2 h3
    simp only [QP.extract_time_range]
    rw [if_neg (by simp [h1]), if_neg (by simp [h2]), if_pos h3]
  · intro h1 h2 h3 h4
    simp only [QP.extract_time_range]
    rw [if_neg (by simp [h1]), if_neg (by simp [h2]), if_neg (by simp [h3]), if_pos h4]
  · intro h1 h2 h3 h4 h5
    simp only [QP.extract_time_range]
    rw [if_neg (by simp [h1]), if_neg (by simp [h2]), if_neg (by simp [h3]),
      if_neg (by simp [h4]), h5]
    rfl
  · intro h1 h2 h3 h4 h5
    simp only [QP.extract_time_range]
    rw [if_neg (by simp [h1]), if_neg (by simp [h2]), if_neg (by simp [h3]),
      if_neg (by simp [h4]), h5]
  · show (dayFloor now, dayFloor now + 23 * usPerHour + 59 * usPerMinute +
      59 * 1000000 + 999999) = (dayFloor now, dayFloor now + (usPerDay - 1))
    norm_num [usPerHour, usPerMinute, usPerDay]
    ring

/-- C4 witness: concrete texts for the last-hours and no-match cases,
with every hypothesis evaluated. -/
theorem C4_time_range_witness :
    QP.extract_time_range 100000000000 (str "in the LAST 26 hours") =
      some (100000000000 - 26 * usPerHour, 100000000000) ∧
    QP.extract_time_range 0 (str "whenever") = none := by
  have h := C4_time_range_extraction 100000000000 (str "in the LAST 26 hours") 26
  have h2 := C4_time_range_extraction 0 (str "whenever") 0
  exact ⟨h.2.2.2.2.1 (by decide) (by decide) (by decide) (by decide) (by decide),
    h2.2.2.2.2.2.1 (by decide) (by decide) (by decide) (by decide) (by decide)⟩

lemma foldl_append_flatten {α : Type} (f : α → Str) (l : List α) : ∀ (s : Str),
    l.foldl (fun acc x => acc ++ f x) s = s ++ (l.map f).flatten := by
  induction l with
  | nil => intro s; simp
  | cons x xs ih =>
    intro s
    simp only [List.foldl_cons, List.map_cons, List.flatten_cons]
    rw [ih, List.append_assoc]

lemma foldl_taskLines (l : List (Nat × FmtTask)) (s : Str) :
    l.foldl (fun acc p => acc ++ RF.taskLine p.1 p.2) s
      = s ++ (l.map (fun p => RF.taskLine p.1 p.2)).flatten :=
  foldl_append_flatten _ l s

lemma foldl_activityLines (l : List (Nat × FmtActivity)) (s : Str) :
    l.foldl (fun acc p => acc ++ RF.activityLine p.1 p.2) s
      = s ++ (l.map (fun p => RF.activityLine p.1 p.2)).flatten :=
  foldl_append_flatten _ l s

lemma foldl_residentLines (l : List (Nat × FmtResident)) (s : Str) :
    l.foldl (fun acc p => acc ++ RF.residentLine p.1 p.2) s
      = s ++ (l.map (fun p => RF.residentLine p.1 p.2)).flatten :=
  foldl_append_flatten _ l s

lemma foldl_profileTaskLines (l : List (Nat × FmtTask)) (s : Str) :
    l.foldl (fun acc p => acc ++ RF.profileTaskLine p.1 p.2) s
      = s ++ (l.map (fun p => RF.profileTaskLine p.1 p.2)).flatten :=
  foldl_append_flatten _ l s

/-- C7: each format function renders at most the first 10 items (at
most 5 recent tasks inside a single-resident profile), prefixes the
header carrying the total count, appends the how-many-more footer
exactly when the list is longer than the rendered prefix, and returns
the no-results / resident-not-found template on an empty input. -/
theorem C7_formatters_render_prefixes (tasks : List FmtTask)
    (activities : List FmtActivity) (rs : List FmtResident)
    (r : FmtResident) (rtasks : List FmtTask) :
    (RF.format_task_response [] = Config.tmpl_no_results) ∧
    (tasks ≠ [] →
      RF.format_task_response tasks =
        RF.truncate_response
          (RF.taskHeader tasks.length ++
            (((List.enumFrom 1 (tasks.take 10)).map (fun p => RF.taskLine p.1 p.2)).flatten ++
              (if 10 < tasks.length then RF.taskFooter (tasks.length - 10) else [])))) ∧
    ((List.enumFrom 1 (tasks.take 10)).map (fun p => RF.taskLine p.1 p.2)).length
        = min 10 tasks.length ∧
    (RF.format_activity_response [] = Config.tmpl_no_results) ∧
    (activities ≠ [] →
      RF.format_activity_response activities =
        RF.truncate_response
          (RF.activityHeader activities.length ++
            (((List.enumFrom 1 (activities.take 10)).map
                (fun p => RF.activityLine p.1 p.2)).flatten ++
              (if 10 < activities.length then RF.activityFooter (activities.length - 10)
               else [])))) ∧
    ((List.enumFrom 1 (activities.take 10)).map (fun p => RF.activityLine p.1 p.2)).length
        = min 10 activities.length ∧
    (RF.format_resident_response (.many []) rtasks = Config.tmpl_resident_not_found) ∧
    (rs ≠ [] →
      RF.format_resident_response (.many rs) rtasks =
        RF.truncate_response
          (RF.residentHeader rs.length ++
            (((List.enumFrom 1 (rs.take 10)).map (fun p => RF.residentLine p.1 p.2)).flatten ++
              (if 10 < rs.length then RF.residentFooter (rs.length - 10) else [])))) ∧
    ((List.enumFrom 1 (rs.take 10)).map (fun p => RF.residentLine p.1 p.2)).length
        = min 10 rs.length ∧
    (RF.format_resident_response (.one none) rtasks = Config.tmpl_resident_not_found) ∧
    (RF.format_resident_response (.one (some r)) [] =
      RF.truncate_response
        (RF.profileHead r ++ str "No recent tasks found for this resident.")) ∧
    (rtasks ≠ [] →
      RF.format_resident_response (.one (some r)) rtasks =
        RF.truncate_response
          (RF.profileHead r ++
            ((str "*Recent tasks for " ++ r.full_name.getD (str "Unknown") ++ str ":*\n\n") ++
              (((List.enumFrom 1 (rtasks.take 5)).map
                  (fun p => RF.profileTaskLine p.1 p.2)).flatten ++
                (if 5 < rtasks.length then RF.profileTaskFooter (rtasks.length - 5)
                 else []))))) ∧
    ((List.enumFrom 1 (rtasks.take 5)).map (fun p => RF.profileTaskLine p.1 p.2)).length
        = min 5 rtasks.length := by
  refine ⟨rfl, ?_, ?_, rfl, ?_, ?_, rfl, ?_, ?_, rfl, ?_, ?_, ?_⟩
  · intro hne
    simp only [RF.format_task_response, List.isEmpty_eq_true
      , if_neg (by simpa using hne)]
    simp only [foldl_taskLines]
    split <;> simp [List.append_assoc]
  · simp [List.enumFrom_length, List.length_take]
  · intro hne
    simp only [RF.format_activity_response, List.isEmpty_eq_true
      , if_neg (by simpa using hne)]
    simp only [foldl_activityLines]
    split <;> simp [List.append_assoc]
  · simp [List.enumFrom_length, List.length_take]
  · intro hne
    simp only [RF.format_resident_response, List.isEmpty_eq_true
      , if_neg (by simpa using hne)]
    simp only [foldl_residentLines]
    split <;> simp [List.append_assoc]
  · simp [List.enumFrom_length, List.length_take]
  · simp [RF.format_resident_response, RF.profileTasks]
  · intro hne
    simp only [RF.format_resident_response, RF.profileTasks, List.isEmpty_eq_true
      , if_neg (by simpa using hne)]
    simp only [foldl_profileTaskLines]
    split <;> simp [List.append_assoc]
  · simp [List.enumFrom_length, List.length_take]

/-- C7 witness: concrete renderings at both sides of the 10-item
limit, with every hypothesis evaluated. -/
theorem C7_formatters_witness :
    RF.format_task_response [{}] =
      RF.truncate_response
        (RF.taskHeader 1 ++ (RF.taskLine 1 {} ++ ([] : Str))) ∧
    ((List.enumFrom 1 ((List.replicate 12 ({} : FmtTask)).take 10)).map
        (fun p => RF.taskLine p.1 p.2)).length = 10 := by
  constructor
  · have h := (C7_formatters_render_prefixes [{}] [] [] {} []).2.1 (by decide)
    simpa using h
  · have h := (C7_formatters_render_prefixes (List.replicate 12 ({} : FmtTask))
      [] [] {} []).2.2.1
    simp only [h]
    decide

/-- C10: `process_fall_alerts` sends an alert for a log exactly when
its status is `pending` or `confirmed` and its timestamp is at most
5 minutes old, broadcasting to every chat of the registry, and the
confirm / false-alarm keyboard is attached exactly to pending logs
that carry an id. -/
theorem C10_fall_alerts (now : Micros) (logs : List Fall.FallLog)
    (chats : List (Nat × Nat)) :
    (∀ a ∈ Fall.process_fall_alerts now logs chats,
      ∃ log ∈ logs, ∃ uc ∈ chats, a = Fall.send_fall_alert log uc.2 ∧
        (log.status = str "pending" ∨ log.status = str "confirmed") ∧
        now - 5 * usPerMinute ≤ log.timestamp) ∧
    (∀ log ∈ logs, ∀ uc ∈ chats,
      (log.status = str "pending" ∨ log.status = str "confirmed") →
      now - 5 * usPerMinute ≤ log.timestamp →
      Fall.send_fall_alert log uc.2 ∈ Fall.process_fall_alerts now logs chats) ∧
    (∀ log chat, (Fall.send_fall_alert log chat).keyboard = true ↔
      (log.status = str "pending" ∧ log.fid.isSome = true)) := by
  refine ⟨?_, ?_, ?_⟩
  · intro a ha
    rw [Fall.process_fall_alerts, List.mem_flatMap] at ha
    obtain ⟨log, hlog, hin⟩ := ha
    by_cases hst : (log.status == str "pending" || log.status == str "confirmed") = true
    · simp only [hst, Bool.not_true] at hin
      by_cases hts : log.timestamp < now - 5 * usPerMinute
      · simp [hts] at hin
      · simp only [if_neg hts, Bool.false_eq_true, if_false] at hin
        rw [List.mem_map] at hin
        obtain ⟨uc, huc, rfl⟩ := hin
        refine ⟨log, hlog, uc, huc, rfl, ?_, not_lt.mp hts⟩
        rcases Bool.or_eq_true_iff.mp hst with h | h
        · exact Or.inl (by simpa using h)
        · exact Or.inr (by simpa using h)
    · simp [hst] at hin
  · intro log hlog uc huc hst hts
    rw [Fall.process_fall_alerts, List.mem_flatMap]
    refine ⟨log, hlog, ?_⟩
    have hst' : (log.status == str "pending" || log.status == str "confirmed") = true := by
      rcases hst with h | h <;> simp [h]
    have hts' : ¬(log.timestamp < now - 5 * usPerMinute) := not_lt.mpr hts
    simp only [hst', Bool.not_true, Bool.false_eq_true, if_false, if_neg hts']
    exact List.mem_map.mpr ⟨uc, huc, rfl⟩
  · intro log chat
    simp [Fall.send_fall_alert]

/-- C10 witness: a pending log with id 7, 60 seconds old, is alerted
to the registered chat with the keyboard attached. -/
theorem C10_fall_alerts_witness :
    Fall.send_fall_alert
        ⟨some 7, str "r1", str "pending", 240000000, 12⟩ 100 ∈
      Fall.process_fall_alerts 300000000
        [⟨some 7, str "r1", str "pending", 240000000, 12⟩] [(1, 100)] ∧
    (Fall.send_fall_alert
        ⟨some 7, str "r1", str "pending", 240000000, 12⟩ 100).keyboard = true := by
  have h := C10_fall_alerts 300000000
    [⟨some 7, str "r1", str "pending", 240000000, 12⟩] [(1, 100)]
  refine ⟨h.2.1 _ (by decide) (1, 100) (by decide) (Or.inl (by decide)) (by decide), ?_⟩
  exact (h.2.2 ⟨some 7, str "r1", str "pending", 240000000, 12⟩ 100).mpr
    ⟨by decide, by decide⟩

lemma contains_eq_decide_mem (m : List Nat) (x : Nat) : m.contains x = decide (x ∈ m) := by
  rcases h : m.contains x with _ | _
  · simp at h; simp [h]
  · simp at h; simp [h]

lemma contains_append_nat (a b : List Nat) (x : Nat) :
    (a ++ b).contains x = (a.contains x || b.contains x) := by
  rcases h : (a ++ b).contains x with _ | _ <;> rcases h1 : a.contains x with _ | _ <;>
    rcases h2 : b.contains x with _ | _ <;> simp_all

lemma foldr_mark (l : List Rem.RRec) (m : List Nat) :
    l.foldr (fun r acc => Rem.mark_reminder_sent acc r.rid) m = l.map (·.rid) ++ m := by
  induction l with
  | nil => rfl
  | cons r rs ih => rw [List.foldr_cons, ih]; rfl

lemma pollUser_snd (now : Micros) (recs : List Rem.RRec) (u chat : Nat) (marked : List Nat) :
    (Rem.pollUser now recs u chat marked).2 =
      (recs.filter (fun r => r.creator == u && Rem.remDue now r (marked.contains r.rid))).map
        (fun r => (r.rid, chat)) := by
  simp only [Rem.pollUser, Rem.fetchFor, List.filter_map, List.map_map]
  rw [List.filter_filter]
  congr 1
  apply List.filter_congr
  intro r _
  simp [Function.comp, Bool.and_comm]

lemma pollUser_fst (now : Micros) (recs : List Rem.RRec) (u chat : Nat) (marked : List Nat) :
    (Rem.pollUser now recs u chat marked).1 =
      (recs.filter (fun r => r.creator == u && Rem.remDue now r (marked.contains r.rid))).map
        (·.rid) ++ marked := by
  simp only [Rem.pollUser, Rem.fetchFor, List.filter_map, List.map_map, foldr_mark]
  rw [List.filter_filter]
  congr 2
  apply List.filter_congr
  intro r _
  simp [Function.comp, Bool.and_comm]

lemma countP_rid_le_one (recs : List Rem.RRec) (hn : (recs.map (·.rid)).Nodup) (rid : Nat) :
    recs.countP (fun r => r.rid == rid) ≤ 1 := by
  induction recs with
  | nil => simp
  | cons r rs ih =>
    rw [List.map_cons, List.nodup_cons] at hn
    rw [List.countP_cons]
    by_cases h : r.rid = rid
    · have hz : rs.countP (fun r' => r'.rid == rid) = 0 := by
        rw [List.countP_eq_zero]
        intro r' hr'
        simp only [beq_iff_eq]
        intro heq
        exact hn.1 (h ▸ heq ▸ List.mem_map_of_mem (·.rid) hr')
      simp [hz, h]
    · simp only [beq_iff_eq, h, if_false]
      simpa using ih hn.2

lemma pollUser_count_le_one (now : Micros) (recs : List Rem.RRec) (u chat : Nat)
    (marked : List Nat) (rid : Nat) (hn : (recs.map (·.rid)).Nodup) :
    (Rem.pollUser now recs u chat marked).2.countP (fun p => p.1 == rid) ≤ 1 := by
  rw [pollUser_snd, List.countP_map]
  refine le_trans (List.Sublist.countP_le _ (List.filter_sublist recs)) ?_
  simpa [Function.comp] using countP_rid_le_one recs hn rid

lemma pollUser_count_zero (now : Micros) (recs : List Rem.RRec) (u chat : Nat)
    (marked : List Nat) (rid : Nat) (hm : rid ∈ marked) :
    (Rem.pollUser now recs u chat marked).2.countP (fun p => p.1 == rid) = 0 := by
  rw [pollUser_snd, List.countP_eq_zero]
  intro p hp
  rw [List.mem_map] at hp
  obtain ⟨r, hr, rfl⟩ := hp
  rw [List.mem_filter] at hr
  simp only [beq_iff_eq]
  intro heq
  have hdue := (Bool.and_eq_true_iff.mp hr.2).2
  rw [Rem.remDue] at hdue
  have hc : (marked.contains r.rid) = true := by
    rw [contains_eq_decide_mem]
    simpa [heq] using hm
  rw [hc] at hdue
  simp at hdue

lemma pollUser_mem_marked (now : Micros) (recs : List Rem.RRec) (u chat : Nat)
    (marked : List Nat) (x : Nat) (hx : x ∈ marked) :
    x ∈ (Rem.pollUser now recs u chat marked).1 := by
  rw [pollUser_fst]
  exact List.mem_append.mpr (Or.inr hx)

lemma pollUser_send_marked (now : Micros) (recs : List Rem.RRec) (u chat : Nat)
    (marked : List Nat) (p : Nat × Nat) (hp : p ∈ (Rem.pollUser now recs u chat marked).2) :
    p.1 ∈ (Rem.pollUser now recs u chat marked).1 := by
  rw [pollUser_snd] at hp
  rw [pollUser_fst]
  rw [List.mem_map] at hp
  obtain ⟨r, hr, rfl⟩ := hp
  exact List.mem_append.mpr (Or.inl (List.mem_map_of_mem _ hr))

lemma pollIter_mem_marked (now : Micros) (recs : List Rem.RRec) :
    ∀ (chats : List (Nat × Nat)) (m : List Nat) (x : Nat), x ∈ m →
      x ∈ (Rem.pollIter now recs chats m).1
  | [], _, _, hx => hx
  | _ :: rest, m, x, hx =>
    pollIter_mem_marked now recs rest _ x (pollUser_mem_marked now recs _ _ m x hx)

lemma pollIter_count_zero (now : Micros) (recs : List Rem.RRec) :
    ∀ (chats : List (Nat × Nat)) (m : List Nat) (rid : Nat), rid ∈ m →
      (Rem.pollIter now recs chats m).2.countP (fun p => p.1 == rid) = 0 := by
  intro chats
  induction chats with
  | nil => intro m rid _; simp [Rem.pollIter]
  | cons uc rest ih =>
    intro m rid hm
    have hsp : (Rem.pollIter now recs (uc :: rest) m).2 =
        (Rem.pollUser now recs uc.1 uc.2 m).2 ++
        (Rem.pollIter now recs rest (Rem.pollUser now recs uc.1 uc.2 m).1).2 := rfl
    rw [hsp, List.countP_append, pollUser_count_zero now recs uc.1 uc.2 m rid hm,
      ih _ rid (pollUser_mem_marked now recs uc.1 uc.2 m rid hm)]

lemma pollIter_send_marked (now : Micros) (recs : List Rem.RRec) :
    ∀ (chats : List (Nat × Nat)) (m : List Nat) (p : Nat × Nat),
      p ∈ (Rem.pollIter now recs chats m).2 → p.1 ∈ (Rem.pollIter now recs chats m).1 := by
  intro chats
  induction chats with
  | nil => intro m p hp; simp [Rem.pollIter] at hp
  | cons uc rest ih =>
    intro m p hp
    rcases List.mem_append.mp hp with h | h
    · exact pollIter_mem_marked now recs rest _ p.1
        (pollUser_send_marked now recs uc.1 uc.2 m p h)
    · exact ih _ p h

lemma pollIter_count_le_one (now : Micros) (recs : List Rem.RRec)
    (hn : (recs.map (·.rid)).Nodup) :
    ∀ (chats : List (Nat × Nat)) (m : List Nat) (rid : Nat),
      (Rem.pollIter now recs chats m).2.countP (fun p => p.1 == rid) ≤ 1 ∧
      (0 < (Rem.pollIter now recs chats m).2.countP (fun p => p.1 == rid) →
        rid ∈ (Rem.pollIter now recs chats m).1) := by
  intro chats
  induction chats with
  | nil => intro m rid; simp [Rem.pollIter]
  | cons uc rest ih =>
    intro m rid
    have hsplit : (Rem.pollIter now recs (uc :: rest) m).2.countP (fun p => p.1 == rid) =
        (Rem.pollUser now recs uc.1 uc.2 m).2.countP (fun p => p.1 == rid) +
        (Rem.pollIter now recs rest (Rem.pollUser now recs uc.1 uc.2 m).1).2.countP
          (fun p => p.1 == rid) := List.countP_append _ _ _
    by_cases hc : 0 < (Rem.pollUser now recs uc.1 uc.2 m).2.countP (fun p => p.1 == rid)
    · have hridm : rid ∈ (Rem.pollUser now recs uc.1 uc.2 m).1 := by
        rw [List.countP_pos_iff] at hc
        obtain ⟨p, hp, hpr⟩ := hc
        have := pollUser_send_marked now recs uc.1 uc.2 m p hp
        rwa [show p.1 = rid from by simpa using hpr] at this
      have hz := pollIter_count_zero now recs rest _ rid hridm
      constructor
      · rw [hsplit, hz]
        simpa using pollUser_count_le_one now recs uc.1 uc.2 m rid hn
      · intro _
        exact pollIter_mem_marked now recs rest _ rid hridm
    · push_neg at hc
      have hz : (Rem.pollUser now recs uc.1 uc.2 m).2.countP (fun p => p.1 == rid) = 0 := by
        omega
      constructor
      · rw [hsplit, hz]
        simpa using (ih _ rid).1
      · intro hpos
        rw [hsplit, hz] at hpos
        exact (ih _ rid).2 (by simpa using hpos)

lemma pollRun_count_le_one (recs : List Rem.RRec) (chats : List (Nat × Nat))
    (hn : (recs.map (·.rid)).Nodup) :
    ∀ (times : List Micros) (m : List Nat) (rid : Nat),
      ((Rem.pollRun recs chats times m).2.countP (fun p => p.1 == rid) ≤ 1 ∧
       (0 < (Rem.pollRun recs chats times m).2.countP (fun p => p.1 == rid) →
         rid ∈ (Rem.pollRun recs chats times m).1)) ∧
      (rid ∈ m → (Rem.pollRun recs chats times m).2.countP (fun p => p.1 == rid) = 0 ∧
        rid ∈ (Rem.pollRun recs chats times m).1) := by
  intro times
  induction times with
  | nil => intro m rid; simp [Rem.pollRun]
  | cons now ts ih =>
    intro m rid
    have hsplit : (Rem.pollRun recs chats (now :: ts) m).2.countP (fun p => p.1 == rid) =
        (Rem.pollIter now recs chats m).2.countP (fun p => p.1 == rid) +
        (Rem.pollRun recs chats ts (Rem.pollIter now recs chats m).1).2.countP
          (fun p => p.1 == rid) := List.countP_append _ _ _
    have hlast : (Rem.pollRun recs chats (now :: ts) m).1 =
        (Rem.pollRun recs chats ts (Rem.pollIter now recs chats m).1).1 := rfl
    constructor
    · by_cases hc : 0 < (Rem.pollIter now recs chats m).2.countP (fun p => p.1 == rid)
      · have hridm : rid ∈ (Rem.pollIter now recs chats m).1 :=
          (pollIter_count_le_one now recs hn chats m rid).2 hc
        have hrest := (ih _ rid).2 hridm
        constructor
        · rw [hsplit, hrest.1]
          simpa using (pollIter_count_le_one now recs hn chats m rid).1
        · intro _
          rw [hlast]
          exact hrest.2
      · push_neg at hc
        have hz : (Rem.pollIter now recs chats m).2.countP (fun p => p.1 == rid) = 0 := by
          omega
        constructor
        · rw [hsplit, hz]
          simpa using ((ih _ rid).1).1
        · intro hpos
          rw [hsplit, hz] at hpos
          rw [hlast]
          exact ((ih _ rid).1).2 (by simpa using hpos)
    · intro hm
      have hzi := pollIter_count_zero now recs chats m rid hm
      have hmem := pollIter_mem_marked now recs chats m rid hm
      have hrest := (ih _ rid).2 hmem
      rw [hsplit, hzi, hrest.1, hlast]
      exact ⟨rfl, hrest.2⟩

lemma pollIter_sends_eq (now : Micros) (recs : List Rem.RRec)
    (hn : (recs.map (·.rid)).Nodup) (m0 : List Nat) :
    ∀ (chats : List (Nat × Nat)) (m : List Nat),
      (chats.map (·.1)).Nodup →
      (∀ r ∈ recs, (∃ c, (r.creator, c) ∈ chats) → m.contains r.rid = m0.contains r.rid) →
      (Rem.pollIter now recs chats m).2 =
        chats.flatMap (fun uc =>
          (recs.filter
            (fun r => r.creator == uc.1 && Rem.remDue now r (m0.contains r.rid))).map
            (fun r => (r.rid, uc.2))) := by
  intro chats
  induction chats with
  | nil => intro m _ _; rfl
  | cons uc rest ih =>
    intro m hcn hinv
    rw [List.map_cons, List.nodup_cons] at hcn
    have hsp : (Rem.pollIter now recs (uc :: rest) m).2 =
        (Rem.pollUser now recs uc.1 uc.2 m).2 ++
        (Rem.pollIter now recs rest (Rem.pollUser now recs uc.1 uc.2 m).1).2 := rfl
    rw [hsp, List.flatMap_cons, pollUser_snd]
    have hhead :
        recs.filter (fun r => r.creator == uc.1 && Rem.remDue now r (m.contains r.rid)) =
        recs.filter (fun r => r.creator == uc.1 && Rem.remDue now r (m0.contains r.rid)) := by
      apply List.filter_congr
      intro r hr
      by_cases hcr : r.creator = uc.1
      · have hcm : m.contains r.rid = m0.contains r.rid := by
          apply hinv r hr
          exact ⟨uc.2, by rw [hcr]; simp⟩
        rw [hcm]
      · have hb : (r.creator == uc.1) = false := beq_eq_false_iff_ne.mpr hcr
        rw [hb]
        simp
    rw [hhead]
    congr 1
    apply ih _ hcn.2
    intro r hr hex
    obtain ⟨c, hc⟩ := hex
    rw [pollUser_fst, contains_append_nat]
    have hnotsent :
        (((recs.filter (fun q => q.creator == uc.1 &&
            Rem.remDue now q (m.contains q.rid))).map (·.rid)).contains r.rid) = false := by
      by_contra hcon
      rw [Bool.not_eq_false, contains_eq_decide_mem, decide_eq_true_iff] at hcon
      rw [List.mem_map] at hcon
      obtain ⟨q, hq, hre⟩ := hcon
      rw [List.mem_filter] at hq
      have hcr : q.creator = uc.1 := by
        have h2 := hq.2
        simp only [Bool.and_eq_true, beq_iff_eq] at h2
        exact h2.1
      have hqr : q = r := List.inj_on_of_nodup_map hn hq.1 hr hre
      have hrc : r.creator = uc.1 := hqr ▸ hcr
      have hmem : r.creator ∈ rest.map (·.1) := List.mem_map_of_mem (·.1) hc
      exact hcn.1 (hrc ▸ hmem)
    rw [hnotsent]
    simp only [Bool.false_or]
    exact hinv r hr ⟨c, List.mem_cons_of_mem _ hc⟩

/-- C2: in one invocation of `process_events` / `process_task_reminders`
(with backend record ids unique and the user-to-chat dictionary having
unique keys), a reminder for record `rid` goes to chat `chat` exactly
when a fetched record with that id belongs to a registered user with
that chat and `start - lead minutes <= now < start` holds with the
`reminder_sent` flag unset (lead defaulting to 5 minutes when absent);
and every sent record is marked `reminder_sent` on the backend
afterwards. -/
theorem C2_reminder_window_iff (now : Micros) (recs : List Rem.RRec)
    (chats : List (Nat × Nat)) (marked : List Nat)
    (hn : (recs.map (·.rid)).Nodup) (hc : (chats.map (·.1)).Nodup) :
    (∀ rid chat,
      ((rid, chat) ∈ (Rem.process_events now recs chats marked).2 ↔
        ∃ r ∈ recs, r.rid = rid ∧ (r.creator, chat) ∈ chats ∧
          r.start - r.lead.getD 5 * usPerMinute ≤ now ∧ now < r.start ∧
          marked.contains r.rid = false)) ∧
    (∀ p ∈ (Rem.process_events now recs chats marked).2,
      p.1 ∈ (Rem.process_events now recs chats marked).1) ∧
    (∀ rid chat,
      ((rid, chat) ∈ (Rem.process_task_reminders now recs chats marked).2 ↔
        ∃ r ∈ recs, r.rid = rid ∧ (r.creator, chat) ∈ chats ∧
          r.start - r.lead.getD 5 * usPerMinute ≤ now ∧ now < r.start ∧
          marked.contains r.rid = false)) ∧
    (∀ p ∈ (Rem.process_task_reminders now recs chats marked).2,
      p.1 ∈ (Rem.process_task_reminders now recs chats marked).1) := by
  have he := pollIter_sends_eq now recs hn marked chats marked hc (fun r _ _ => rfl)
  have hiff : ∀ rid chat,
      ((rid, chat) ∈ (Rem.pollIter now recs chats marked).2 ↔
        ∃ r ∈ recs, r.rid = rid ∧ (r.creator, chat) ∈ chats ∧
          r.start - r.lead.getD 5 * usPerMinute ≤ now ∧ now < r.start ∧
          marked.contains r.rid = false) := by
    intro rid chat
    rw [he, List.mem_flatMap]
    constructor
    · rintro ⟨uc, huc, hmm⟩
      rw [List.mem_map] at hmm
      obtain ⟨r, hrf, hpe⟩ := hmm
      rw [List.mem_filter] at hrf
      have hconds := hrf.2
      simp only [Bool.and_eq_true, beq_iff_eq, Rem.remDue, Rem.leadOf,
        decide_eq_true_eq, Bool.not_eq_true'] at hconds
      obtain ⟨hcr, ⟨hle, hlt⟩, hflag⟩ := hconds
      have h1 : r.rid = rid := congrArg Prod.fst hpe
      have h2 : uc.2 = chat := congrArg Prod.snd hpe
      refine ⟨r, hrf.1, h1, ?_, hle, hlt, hflag⟩
      have : uc = (r.creator, chat) := by
        rcases uc with ⟨u1, c1⟩
        simp only at hcr h2
        rw [hcr, h2]
      rwa [this] at huc
    · rintro ⟨r, hr, hrid, hmemc, hle, hlt, hflag⟩
      refine ⟨(r.creator, chat), hmemc, ?_⟩
      rw [List.mem_map]
      refine ⟨r, ?_, by rw [hrid]⟩
      rw [List.mem_filter]
      refine ⟨hr, ?_⟩
      simp only [Bool.and_eq_true, beq_iff_eq, Rem.remDue, Rem.leadOf,
        decide_eq_true_eq, Bool.not_eq_true']
      exact ⟨by simp, ⟨hle, hlt⟩, hflag⟩
  exact ⟨hiff, fun p hp => pollIter_send_marked now recs chats marked p hp,
    hiff, fun p hp => pollIter_send_marked now recs chats marked p hp⟩

/-- C2 witness: a single activity three minutes from its start with the
default 5 minute lead and flag unset is sent to its creator's chat, at
concrete inputs. -/
theorem C2_reminder_window_witness :
    ((1 : Nat), (500 : Nat)) ∈
      (Rem.process_events 420000000 [⟨1, 10, 600000000, none⟩] [(10, 500)] []).2 := by
  have h := (C2_reminder_window_iff 420000000 [⟨1, 10, 600000000, none⟩] [(10, 500)] []
    (by decide) (by decide)).1 1 500
  refine h.mpr ⟨⟨1, 10, 600000000, none⟩, ?_, ?_, ?_, ?_, ?_, ?_⟩ <;> decide

/-- C1 counterexample: the fall-alert loop keeps no per-record send
state, so the pending fall log with id 7 is alerted to chat 100 in two
consecutive polling iterations inside its 5-minute window: the claim
that no record notifies the same chat more than once is false. -/
theorem C1_once_per_record_counterexample :
    ¬ ((Fall.fallRun [⟨some 7, str "r1", str "pending", 240000000, 12⟩] [(1, 100)]
          [300000000, 360000000]).countP
        (fun a => a.fall_id == some 7 && a.chat == 100) ≤ 1) := by decide

/-- C1 (amended): for activities and tasks, whenever backend record ids
are unique and each send's `mark_reminder_sent` PATCH takes effect, a
record is notified at most once to a chat across all polling
iterations; the fall-alert loop performs no such deduplication, and a
pending log inside its 5-minute window is re-alerted on every
iteration. -/
theorem C1_reminders_at_most_once_falls_repeat :
    (∀ (recs : List Rem.RRec) (chats : List (Nat × Nat)) (times : List Micros)
        (marked : List Nat) (rid chat : Nat), (recs.map (·.rid)).Nodup →
      (Rem.pollRun recs chats times marked).2.countP
          (fun p => p.1 == rid && p.2 == chat) ≤ 1) ∧
    (∀ now recs chats marked,
      Rem.process_events now recs chats marked = Rem.pollIter now recs chats marked ∧
      Rem.process_task_reminders now recs chats marked =
        Rem.pollIter now recs chats marked) ∧
    (∀ (log : Fall.FallLog) (u chat : Nat) (t1 t2 : Micros),
      log.status = str "pending" →
      t1 - 5 * usPerMinute ≤ log.timestamp →
      t2 - 5 * usPerMinute ≤ log.timestamp →
      (Fall.fallRun [log] [(u, chat)] [t1, t2]).countP
          (fun a => a == Fall.send_fall_alert log chat) = 2) := by
  refine ⟨?_, fun _ _ _ _ => ⟨rfl, rfl⟩, ?_⟩
  · intro recs chats times marked rid chat hn
    refine le_trans (List.countP_mono_left ?_) (((pollRun_count_le_one recs chats hn
      times marked rid).1).1)
    intro p _ hp
    have := (Bool.and_eq_true_iff.mp hp).1
    exact this
  · intro log u chat t1 t2 hst hw1 hw2
    have hone : ∀ t : Micros, t - 5 * usPerMinute ≤ log.timestamp →
        Fall.process_fall_alerts t [log] [(u, chat)] = [Fall.send_fall_alert log chat] := by
      intro t hw
      have hc2 : ¬ (log.timestamp < t - 5 * usPerMinute) := not_lt.mpr hw
      simp [Fall.process_fall_alerts, hst, hc2]
    show (Fall.process_fall_alerts t1 [log] [(u, chat)] ++
      (Fall.process_fall_alerts t2 [log] [(u, chat)] ++ [])).countP _ = 2
    rw [hone t1 hw1, hone t2 hw2]
    simp [List.countP_cons]

/-- C1 witness: the at-most-once bound for a concrete activity run and
the double fall alert at concrete inputs, with every hypothesis
evaluated. -/
theorem C1_reminders_witness :
    (Rem.pollRun [⟨1, 10, 600000000, none⟩] [(10, 500)] [420000000, 480000000] []).2.countP
        (fun p => p.1 == 1 && p.2 == 500) ≤ 1 ∧
    (Fall.fallRun [⟨some 7, str "r1", str "pending", 240000000, 12⟩] [(1, 100)]
        [300000000, 360000000]).countP
      (fun a => a == Fall.send_fall_alert
        ⟨some 7, str "r1", str "pending", 240000000, 12⟩ 100) = 2 := by
  constructor
  · exact C1_reminders_at_most_once_falls_repeat.1 [⟨1, 10, 600000000, none⟩] [(10, 500)]
      [420000000, 480000000] [] 1 500 (by decide)
  · exact C1_reminders_at_most_once_falls_repeat.2.2
      ⟨some 7, str "r1", str "pending", 240000000, 12⟩ 1 100 300000000 360000000
      (by decide) (by decide) (by decide)

end CareConnect
